import Mathlib

/-! IPv4 socket options on Windows.

A shallow embedding of the accessor layer of `ipv4/sockopt_windows.go`.

* The kernel is an explicit state `Kernel`: the option buffers it holds, the
  calls it rejects, and the trace of every `getsockopt`/`setsockopt` call made.
  Every accessor is a function `Kernel → result × Kernel`.
* A Go `error` is `Option GoError` (`none` is `nil`).
* `int32` values live in memory as four little-endian bytes (every Windows
  target of Go is little-endian); `unsafe.Pointer(&v)` hands these bytes to the
  kernel primitive.
* Go's `int` (32 or 64 bits wide, by target) is modelled by `Int`; the conversion
  `int32(v)` is the explicit two's-complement wrap `int32`.
* `netInterfaceToIP4`, `netIP4ToInterface` and `setSyscallIPMreq` live in other
  files of the package; the accessors take them as the parameter `Helpers`.
-/

namespace ipv4

/-! ## Go values -/

/-- Error numbers of package `syscall`: the invented constant `syscall.EWINDOWS`
("not supported by windows") and the error numbers the operating system reports. -/
inductive Errno where
  | EWINDOWS
  | code (n : Nat)
deriving DecidableEq, Repr

/-- Go `error` values met in this file: a `syscall.Errno`, an `*os.SyscallError`
(fields `Syscall` and `Err`), or any other error value, named by its message. -/
inductive GoError where
  | errno (e : Errno)
  | SyscallError (Syscall : String) (Err : GoError)
  | other (msg : String)
deriving DecidableEq, Repr

/-- The error `syscall.EWINDOWS` as an `error` value. -/
def syscall.EWINDOWS : GoError := GoError.errno Errno.EWINDOWS

/-- The function `os.NewSyscallError`: `nil` stays `nil`, any other error is
wrapped with the name of the system call. -/
def os.NewSyscallError (name : String) (err : Option GoError) : Option GoError :=
  match err with
  | none => none
  | some e => some (GoError.SyscallError name e)

/-- The type `syscall.Handle` (a `uintptr`). -/
abbrev Handle := Nat

/-- The socket option names of package `syscall` used by this file. -/
inductive SockOpt where
  | IP_TOS
  | IP_TTL
  | IP_MULTICAST_IF
  | IP_MULTICAST_TTL
  | IP_MULTICAST_LOOP
  | IP_ADD_MEMBERSHIP
  | IP_DROP_MEMBERSHIP
deriving DecidableEq, Repr

/-- Modelled from the spec: the constant `ianaProtocolIP` is declared in another
file of the package; the spec calls it "the IPv4 protocol level", whose IANA
protocol number is 0. -/
def ianaProtocolIP : Int := 0

/-- Modelled from the spec: the helper `boolint` is declared in another file of
the package; the spec describes "a boolean encoded as 0/1". -/
def boolint (b : Bool) : Int := if b then 1 else 0

/-- The conversion `int32(v)`: wrap to the signed 32-bit range. -/
def int32 (v : Int) : Int := (v + 2147483648) % 4294967296 - 2147483648

/-- The four bytes of an `int32` variable in memory (little-endian two's complement). -/
def bytesOfInt32 (v : Int) : List Nat :=
  let u := (v % 4294967296).toNat
  [u % 256, u / 256 % 256, u / 65536 % 256, u / 16777216 % 256]

/-- The `int32` value held by four bytes of memory (little-endian two's complement);
a missing byte reads as zero. -/
def int32OfBytes (b : List Nat) : Int :=
  let u : Nat := b.getD 0 0 + 256 * b.getD 1 0 + 65536 * b.getD 2 0 + 16777216 * b.getD 3 0
  if u < 2147483648 then (u : Int) else (u : Int) - 4294967296

/-- The builtin `copy(dst, src)`: the first `min (len dst) (len src)` elements of
`dst` are overwritten; the result is the new content of `dst`. -/
def copy (dst src : List Nat) : List Nat :=
  src.take dst.length ++ dst.drop (src.take dst.length).length

/-! ## Package `net` -/

/-- The type `net.IP`, a byte slice. -/
abbrev net.IP := List Nat

/-- The type `net.Interface`. -/
structure net.Interface where
  Index : Int
  MTU : Int
  Name : String
deriving DecidableEq, Repr

/-- The prefix of an IPv4 address in 16-byte form. -/
def net.v4InV6Prefix : List Nat := [0, 0, 0, 0, 0, 0, 0, 0, 0, 0, 255, 255]

/-- The function `net.IPv4`: the 16-byte form of the address `a.b.c.d`. -/
def net.IPv4 (a b c d : Nat) : net.IP := net.v4InV6Prefix ++ [a, b, c, d]

/-- The method `IP.To4`: the 4-byte form of an IPv4 address, `none` (nil) when
the slice is not an IPv4 address. -/
def net.IP.To4 (ip : net.IP) : Option net.IP :=
  if ip.length = 4 then some ip
  else if ip.length = 16 ∧ (ip.take 10).all (fun x => x == 0) ∧ ip.getD 10 0 = 255
      ∧ ip.getD 11 0 = 255 then some (ip.drop 12)
  else none

/-- The method `IP.Equal`: equality of addresses, a 4-byte form being equal to
its 16-byte form. -/
def net.IP.Equal (ip x : net.IP) : Bool :=
  if ip.length = x.length then decide (ip = x)
  else if ip.length = 4 ∧ x.length = 16 then
    decide (x.take 12 = net.v4InV6Prefix) && decide (ip = x.drop 12)
  else if ip.length = 16 ∧ x.length = 4 then
    decide (ip.take 12 = net.v4InV6Prefix) && decide (ip.drop 12 = x)
  else false

/-- The bytes of a possibly nil slice. -/
def sliceBytes (s : Option net.IP) : List Nat := s.getD []

/-! ## The kernel -/

/-- One invocation of the kernel option-exchange primitive. -/
inductive Call where
  | getsockopt (fd : Handle) (level : Int) (opt : SockOpt) (len : Nat)
  | setsockopt (fd : Handle) (level : Int) (opt : SockOpt) (buf : List Nat) (len : Nat)
deriving DecidableEq, Repr

/-- The kernel as the accessors see it: `mem` is the buffer held for each option
of each socket, `fault` tells which calls the kernel rejects and with which error
number, `trace` records every call of the primitive in order. -/
structure Kernel where
  mem : Handle → Int → SockOpt → List Nat
  fault : Call → Option Errno
  trace : List Call

/-- The kernel after one more recorded call. -/
def Kernel.record (k : Kernel) (c : Call) : Kernel :=
  { mem := k.mem, fault := k.fault, trace := k.trace ++ [c] }

/-- The kernel after storing `buf` for option `opt` at `level` of socket `fd`. -/
def Kernel.store (k : Kernel) (fd : Handle) (level : Int) (opt : SockOpt) (buf : List Nat) :
    Kernel :=
  { mem := fun fd' level' opt' =>
      if fd' = fd ∧ level' = level ∧ opt' = opt then buf else k.mem fd' level' opt'
    fault := k.fault
    trace := k.trace }

/-- The primitive `syscall.Getsockopt(fd, level, opt, &buf[0], &l)`: the call is
recorded; a rejected call leaves the buffer alone and returns the error number;
an accepted call writes at most `l` bytes of the option into the buffer. -/
def syscall.Getsockopt (k : Kernel) (fd : Handle) (level : Int) (opt : SockOpt)
    (buf : List Nat) (l : Nat) : Option GoError × List Nat × Kernel :=
  let c := Call.getsockopt fd level opt l
  match k.fault c with
  | some e => (some (GoError.errno e), buf, k.record c)
  | none => (none, copy buf ((k.mem fd level opt).take l), k.record c)

/-- The primitive `syscall.Setsockopt(fd, level, opt, &buf[0], l)`: the call is
recorded; a rejected call returns the error number; an accepted call stores the
first `l` bytes of the buffer as the value of the option. -/
def syscall.Setsockopt (k : Kernel) (fd : Handle) (level : Int) (opt : SockOpt)
    (buf : List Nat) (l : Nat) : Option GoError × Kernel :=
  let c := Call.setsockopt fd level opt buf l
  match k.fault c with
  | some e => (some (GoError.errno e), k.record c)
  | none => (none, (k.store fd level opt (buf.take l)).record c)

/-! ## Helpers of the package declared in other files -/

/-- The record `syscall.IPMreq`: two `[4]byte` fields. -/
structure syscall.IPMreq where
  Multiaddr : List Nat
  Interface : List Nat
deriving DecidableEq, Repr

/-- The bytes of an `IPMreq` in memory. -/
def syscall.IPMreq.bytes (m : syscall.IPMreq) : List Nat := m.Multiaddr ++ m.Interface

/-- The size `unsafe.Sizeof(*mreq)` of an `IPMreq`. -/
def sizeofIPMreq : Nat := 8

/-- The three helpers of the package this file calls and does not declare.
`setSyscallIPMreq` receives a pointer to the record: it returns the record as it
leaves it, together with its error. -/
structure Helpers where
  netInterfaceToIP4 : Option net.Interface → Option net.IP × Option GoError
  netIP4ToInterface : net.IP → Option net.Interface × Option GoError
  setSyscallIPMreq : syscall.IPMreq → Option net.Interface → syscall.IPMreq × Option GoError

/-- Outcome of a Go call that may fault at run time. -/
inductive Outcome (α : Type) where
  | returned (a : α)
  | indexOutOfRange
deriving DecidableEq, Repr

/-! ## Scalar options -/

/-- The function `ipv4TOS`. -/
def ipv4TOS (fd : Handle) (k : Kernel) : (Int × Option GoError) × Kernel :=
  let v := bytesOfInt32 0
  let l := 4
  match syscall.Getsockopt k fd ianaProtocolIP SockOpt.IP_TOS v l with
  | (err, v, k) =>
    if err ≠ none then ((0, os.NewSyscallError "getsockopt" err), k)
    else ((int32OfBytes v, none), k)

/-- The function `setIPv4TOS`. -/
def setIPv4TOS (fd : Handle) (v : Int) (k : Kernel) : Option GoError × Kernel :=
  let vv := int32 v
  match syscall.Setsockopt k fd ianaProtocolIP SockOpt.IP_TOS (bytesOfInt32 vv) 4 with
  | (err, k) =>
    if err ≠ none then (os.NewSyscallError "setsockopt" err, k)
    else (none, k)

/-- The function `ipv4TTL`. -/
def ipv4TTL (fd : Handle) (k : Kernel) : (Int × Option GoError) × Kernel :=
  let v := bytesOfInt32 0
  let l := 4
  match syscall.Getsockopt k fd ianaProtocolIP SockOpt.IP_TTL v l with
  | (err, v, k) =>
    if err ≠ none then ((0, os.NewSyscallError "getsockopt" err), k)
    else ((int32OfBytes v, none), k)

/-- The function `setIPv4TTL`. -/
def setIPv4TTL (fd : Handle) (v : Int) (k : Kernel) : Option GoError × Kernel :=
  let vv := int32 v
  match syscall.Setsockopt k fd ianaProtocolIP SockOpt.IP_TTL (bytesOfInt32 vv) 4 with
  | (err, k) =>
    if err ≠ none then (os.NewSyscallError "setsockopt" err, k)
    else (none, k)

/-- The function `ipv4MulticastTTL`. -/
def ipv4MulticastTTL (fd : Handle) (k : Kernel) : (Int × Option GoError) × Kernel :=
  let v := bytesOfInt32 0
  let l := 4
  match syscall.Getsockopt k fd ianaProtocolIP SockOpt.IP_MULTICAST_TTL v l with
  | (err, v, k) =>
    if err ≠ none then ((0, os.NewSyscallError "getsockopt" err), k)
    else ((int32OfBytes v, none), k)

/-- The function `setIPv4MulticastTTL`. -/
def setIPv4MulticastTTL (fd : Handle) (v : Int) (k : Kernel) : Option GoError × Kernel :=
  let vv := int32 v
  match syscall.Setsockopt k fd ianaProtocolIP SockOpt.IP_MULTICAST_TTL (bytesOfInt32 vv) 4 with
  | (err, k) =>
    if err ≠ none then (os.NewSyscallError "setsockopt" err, k)
    else (none, k)

/-! ## Options Windows does not support -/

/-- The function `ipv4ReceiveTTL`. -/
def ipv4ReceiveTTL (_fd : Handle) (k : Kernel) : (Bool × Option GoError) × Kernel :=
  ((false, some syscall.EWINDOWS), k)

/-- The function `setIPv4ReceiveTTL`. -/
def setIPv4ReceiveTTL (_fd : Handle) (_v : Bool) (k : Kernel) : Option GoError × Kernel :=
  (some syscall.EWINDOWS, k)

/-- The function `ipv4ReceiveDestinationAddress`. -/
def ipv4ReceiveDestinationAddress (_fd : Handle) (k : Kernel) :
    (Bool × Option GoError) × Kernel :=
  ((false, some syscall.EWINDOWS), k)

/-- The function `setIPv4ReceiveDestinationAddress`. -/
def setIPv4ReceiveDestinationAddress (_fd : Handle) (_v : Bool) (k : Kernel) :
    Option GoError × Kernel :=
  (some syscall.EWINDOWS, k)

/-- The function `ipv4HeaderPrepend`. -/
def ipv4HeaderPrepend (_fd : Handle) (k : Kernel) : (Bool × Option GoError) × Kernel :=
  ((false, some syscall.EWINDOWS), k)

/-- The function `setIPv4HeaderPrepend`. -/
def setIPv4HeaderPrepend (_fd : Handle) (_v : Bool) (k : Kernel) : Option GoError × Kernel :=
  (some syscall.EWINDOWS, k)

/-- The function `ipv4ReceiveInterface`. -/
def ipv4ReceiveInterface (_fd : Handle) (k : Kernel) : (Bool × Option GoError) × Kernel :=
  ((false, some syscall.EWINDOWS), k)

/-- The function `setIPv4ReceiveInterface`. -/
def setIPv4ReceiveInterface (_fd : Handle) (_v : Bool) (k : Kernel) : Option GoError × Kernel :=
  (some syscall.EWINDOWS, k)

/-! ## Multicast interface, loopback and membership -/

/-- The function `ipv4MulticastInterface`. -/
def ipv4MulticastInterface (h : Helpers) (fd : Handle) (k : Kernel) :
    (Option net.Interface × Option GoError) × Kernel :=
  let a := [0, 0, 0, 0]
  let l := 4
  match syscall.Getsockopt k fd ianaProtocolIP SockOpt.IP_MULTICAST_IF a l with
  | (err, a, k) =>
    if err ≠ none then ((none, os.NewSyscallError "getsockopt" err), k)
    else (h.netIP4ToInterface (net.IPv4 (a.getD 0 0) (a.getD 1 0) (a.getD 2 0) (a.getD 3 0)), k)

/-- The function `setIPv4MulticastInterface`. -/
def setIPv4MulticastInterface (h : Helpers) (fd : Handle) (ifi : Option net.Interface)
    (k : Kernel) : Option GoError × Kernel :=
  match h.netInterfaceToIP4 ifi with
  | (ip, err) =>
    if err ≠ none then (os.NewSyscallError "setsockopt" err, k)
    else
      let a := copy [0, 0, 0, 0] (sliceBytes (ip.bind net.IP.To4))
      match syscall.Setsockopt k fd ianaProtocolIP SockOpt.IP_MULTICAST_IF a 4 with
      | (err, k) =>
        if err ≠ none then (os.NewSyscallError "setsockopt" err, k)
        else (none, k)

/-- The function `ipv4MulticastLoopback`. -/
def ipv4MulticastLoopback (fd : Handle) (k : Kernel) : (Bool × Option GoError) × Kernel :=
  let v := bytesOfInt32 0
  let l := 4
  match syscall.Getsockopt k fd ianaProtocolIP SockOpt.IP_MULTICAST_LOOP v l with
  | (err, v, k) =>
    if err ≠ none then ((false, os.NewSyscallError "getsockopt" err), k)
    else ((decide (int32OfBytes v = 1), none), k)

/-- The function `setIPv4MulticastLoopback`. -/
def setIPv4MulticastLoopback (fd : Handle) (v : Bool) (k : Kernel) : Option GoError × Kernel :=
  let vv := int32 (boolint v)
  match syscall.Setsockopt k fd ianaProtocolIP SockOpt.IP_MULTICAST_LOOP (bytesOfInt32 vv) 4 with
  | (err, k) =>
    if err ≠ none then (os.NewSyscallError "setsockopt" err, k)
    else (none, k)

/-- The composite literal `&syscall.IPMreq{Multiaddr: [4]byte{grp[0], grp[1], grp[2], grp[3]}}`:
indexing `grp` beyond its length faults. -/
def newIPMreq (grp : net.IP) : Outcome syscall.IPMreq :=
  match grp[0]?, grp[1]?, grp[2]?, grp[3]? with
  | some g0, some g1, some g2, some g3 =>
    Outcome.returned { Multiaddr := [g0, g1, g2, g3], Interface := [0, 0, 0, 0] }
  | _, _, _, _ => Outcome.indexOutOfRange

/-- The function `joinIPv4Group`. -/
def joinIPv4Group (h : Helpers) (fd : Handle) (ifi : Option net.Interface) (grp : net.IP)
    (k : Kernel) : Outcome (Option GoError) × Kernel :=
  match newIPMreq grp with
  | Outcome.indexOutOfRange => (Outcome.indexOutOfRange, k)
  | Outcome.returned mreq =>
    match h.setSyscallIPMreq mreq ifi with
    | (mreq, err) =>
      if err ≠ none then (Outcome.returned err, k)
      else
        match syscall.Setsockopt k fd ianaProtocolIP SockOpt.IP_ADD_MEMBERSHIP mreq.bytes
          sizeofIPMreq with
        | (err, k) =>
          if err ≠ none then (Outcome.returned (os.NewSyscallError "setsockopt" err), k)
          else (Outcome.returned none, k)

/-- The function `leaveIPv4Group`. -/
def leaveIPv4Group (h : Helpers) (fd : Handle) (ifi : Option net.Interface) (grp : net.IP)
    (k : Kernel) : Outcome (Option GoError) × Kernel :=
  match newIPMreq grp with
  | Outcome.indexOutOfRange => (Outcome.indexOutOfRange, k)
  | Outcome.returned mreq =>
    match h.setSyscallIPMreq mreq ifi with
    | (mreq, err) =>
      if err ≠ none then (Outcome.returned err, k)
      else
        match syscall.Setsockopt k fd ianaProtocolIP SockOpt.IP_DROP_MEMBERSHIP mreq.bytes
          sizeofIPMreq with
        | (err, k) =>
          if err ≠ none then (Outcome.returned (os.NewSyscallError "setsockopt" err), k)
          else (Outcome.returned none, k)

/-! ## A table of local interfaces -/

/-- Modelled from the spec: the error of a failed interface resolution ("a
lookup/assignment error"); the package declares it in another file. -/
def errNoSuchInterface : GoError := GoError.other "no such interface"

/-- The local interfaces in enumeration order, each with the addresses assigned to it. -/
abbrev InterfaceTable := List (net.Interface × List net.IP)

/-- The addresses the table assigns to an interface (none for an unknown interface). -/
def InterfaceTable.addrs (tab : InterfaceTable) (ifi : net.Interface) : List net.IP :=
  match tab.find? (fun e => decide (e.1 = ifi)) with
  | some e => e.2
  | none => []

/-- The first IPv4 address of a list of addresses. -/
def firstIP4 (addrs : List net.IP) : Option net.IP :=
  addrs.find? (fun a => a.To4.isSome)

/-- Modelled from the spec: the helper `netInterfaceToIP4` is declared in another
file; it "resolves the supplied interface reference to its primary IPv4 address
(fails if the interface has none)". A nil reference names no interface and gives
the wildcard address 0.0.0.0. -/
def tableNetInterfaceToIP4 (tab : InterfaceTable) :
    Option net.Interface → Option net.IP × Option GoError
  | none => (some (net.IPv4 0 0 0 0), none)
  | some ifi =>
    match firstIP4 (tab.addrs ifi) with
    | some ip => (some ip, none)
    | none => (none, some errNoSuchInterface)

/-- Modelled from the spec: the helper `netIP4ToInterface` is declared in another
file; it resolves an address "to an interface reference by matching local
interface addresses; fails with a lookup error if no local interface owns that
address", picking "the first matching interface deterministically by interface
enumeration order". -/
def tableNetIP4ToInterface (tab : InterfaceTable) (ip : net.IP) :
    Option net.Interface × Option GoError :=
  match tab.find? (fun e => e.2.any (fun a => ip.Equal a)) with
  | some e => (some e.1, none)
  | none => (none, some errNoSuchInterface)

/-- Modelled from the spec: the helper `setSyscallIPMreq` is declared in another
file; it completes "a membership-request record embedding the group address and
the chosen interface selector" (by address on this platform), and an interface
with "no usable IPv4 address" is a lookup/assignment error. A nil reference
leaves the selector zero. -/
def tableSetSyscallIPMreq (tab : InterfaceTable) (mreq : syscall.IPMreq) :
    Option net.Interface → syscall.IPMreq × Option GoError
  | none => (mreq, none)
  | some ifi =>
    match firstIP4 (tab.addrs ifi) with
    | some ip =>
      ({ Multiaddr := mreq.Multiaddr,
         Interface := copy mreq.Interface (sliceBytes ip.To4) }, none)
    | none => (mreq, some errNoSuchInterface)

/-- The helpers over a table of local interfaces. -/
def tableHelpers (tab : InterfaceTable) : Helpers :=
  { netInterfaceToIP4 := tableNetInterfaceToIP4 tab
    netIP4ToInterface := tableNetIP4ToInterface tab
    setSyscallIPMreq := tableSetSyscallIPMreq tab }

/-! ## What an accessor owes for its call of the primitive -/

/-- A getter that made the call `c` from kernel `k` and ended in `r`: the trace has
grown by exactly `c`; if the kernel rejected `c` with `e` the result is the zero
value with the error `getsockopt: e`; if the kernel accepted `c` the error is nil. -/
def getterVerdict {α : Type} (zero : α) (k : Kernel) (c : Call)
    (r : (α × Option GoError) × Kernel) : Prop :=
  r.2.trace = k.trace ++ [c]
  ∧ (∀ e, k.fault c = some e →
      r.1 = (zero, some (GoError.SyscallError "getsockopt" (GoError.errno e))))
  ∧ (k.fault c = none → r.1.2 = none)

/-- A setter that made the call `c` from kernel `k` and ended with error `err` in
kernel `k1`: the trace has grown by exactly `c`; if the kernel rejected `c` with
`e` the error is `setsockopt: e`; if the kernel accepted `c` the error is nil. -/
def setterVerdict (k : Kernel) (c : Call) (err : Option GoError) (k1 : Kernel) : Prop :=
  k1.trace = k.trace ++ [c]
  ∧ (∀ e, k.fault c = some e →
      err = some (GoError.SyscallError "setsockopt" (GoError.errno e)))
  ∧ (k.fault c = none → err = none)

/-! ## Sample kernels and helpers -/

/-- A sample interface. -/
def eth0 : net.Interface := { Index := 1, MTU := 1500, Name := "eth0" }

/-- A host whose only interface `eth0` has the address 192.168.1.10. -/
def oneAddress : InterfaceTable := [(eth0, [[192, 168, 1, 10]])]

/-- A second sample interface. -/
def eth1 : net.Interface := { Index := 2, MTU := 1500, Name := "eth1" }

/-- A host where `eth0` has the addresses 10.0.0.1 and 10.0.0.2 and `eth1`, later in
the enumeration, has the address 10.0.0.2. -/
def sharedAddress : InterfaceTable :=
  [(eth0, [[10, 0, 0, 1], [10, 0, 0, 2]]), (eth1, [[10, 0, 0, 2]])]

/-- A host whose only interface `eth0` has no address at all. -/
def noAddress : InterfaceTable := [(eth0, [])]


/-- A kernel that accepts every call, holds zeroed buffers and has an empty trace. -/
def quietKernel : Kernel :=
  { mem := fun _ _ _ => [0, 0, 0, 0], fault := fun _ => none, trace := [] }

/-- A kernel that accepts every call and holds `buf` for every option. -/
def holdingKernel (buf : List Nat) : Kernel :=
  { mem := fun _ _ _ => buf, fault := fun _ => none, trace := [] }

/-- A kernel that rejects every call with error number `e`. -/
def failingKernel (e : Nat) : Kernel :=
  { mem := fun _ _ _ => [0, 0, 0, 0], fault := fun _ => some (Errno.code e), trace := [] }

/-! ## Encoding lemmas -/

theorem int32OfBytes_bytesOfInt32 (v : Int) : int32OfBytes (bytesOfInt32 v) = int32 v := by
  unfold int32OfBytes bytesOfInt32 int32
  simp only [List.getD_cons_zero, List.getD_cons_succ]
  have h0 : 0 ≤ v % 4294967296 := Int.emod_nonneg _ (by norm_num)
  have h1 : v % 4294967296 < 4294967296 := Int.emod_lt_of_pos _ (by norm_num)
  obtain ⟨u, hu⟩ := Int.eq_ofNat_of_zero_le h0
  rw [hu] at h1
  rw [hu, Int.toNat_ofNat]
  have hs : u % 256 + 256 * (u / 256 % 256) + 65536 * (u / 65536 % 256)
      + 16777216 * (u / 16777216 % 256) = u := by omega
  rw [hs]
  split <;> omega

theorem int32_of_inRange (v : Int) (h0 : -2147483648 ≤ v) (h1 : v < 2147483648) :
    int32 v = v := by
  unfold int32
  omega

theorem int32_idem (v : Int) : int32 (int32 v) = int32 v := by
  unfold int32
  omega

/-! ## The kernel primitive, case by case -/

theorem Getsockopt_rejected (k : Kernel) (fd : Handle) (level : Int) (opt : SockOpt)
    (buf : List Nat) (l : Nat) (e : Errno)
    (hf : k.fault (Call.getsockopt fd level opt l) = some e) :
    syscall.Getsockopt k fd level opt buf l
      = (some (GoError.errno e), buf, k.record (Call.getsockopt fd level opt l)) := by
  simp [syscall.Getsockopt, hf]

theorem Getsockopt_accepted (k : Kernel) (fd : Handle) (level : Int) (opt : SockOpt)
    (buf : List Nat) (l : Nat)
    (hf : k.fault (Call.getsockopt fd level opt l) = none) :
    syscall.Getsockopt k fd level opt buf l
      = (none, copy buf ((k.mem fd level opt).take l),
          k.record (Call.getsockopt fd level opt l)) := by
  simp [syscall.Getsockopt, hf]

theorem Setsockopt_rejected (k : Kernel) (fd : Handle) (level : Int) (opt : SockOpt)
    (buf : List Nat) (l : Nat) (e : Errno)
    (hf : k.fault (Call.setsockopt fd level opt buf l) = some e) :
    syscall.Setsockopt k fd level opt buf l
      = (some (GoError.errno e), k.record (Call.setsockopt fd level opt buf l)) := by
  simp [syscall.Setsockopt, hf]

theorem Setsockopt_accepted (k : Kernel) (fd : Handle) (level : Int) (opt : SockOpt)
    (buf : List Nat) (l : Nat)
    (hf : k.fault (Call.setsockopt fd level opt buf l) = none) :
    syscall.Setsockopt k fd level opt buf l
      = (none, (k.store fd level opt (buf.take l)).record
          (Call.setsockopt fd level opt buf l)) := by
  simp [syscall.Setsockopt, hf]

theorem Setsockopt_trace (k : Kernel) (fd : Handle) (level : Int) (opt : SockOpt)
    (buf : List Nat) (l : Nat) :
    (syscall.Setsockopt k fd level opt buf l).2.trace
      = k.trace ++ [Call.setsockopt fd level opt buf l] := by
  cases hf : k.fault (Call.setsockopt fd level opt buf l) with
  | none => rw [Setsockopt_accepted _ _ _ _ _ _ hf]; rfl
  | some e => rw [Setsockopt_rejected _ _ _ _ _ _ _ hf]; rfl

theorem copy_four (a b c d : Nat) (src : List Nat) (h : src.length = 4) :
    copy [a, b, c, d] (src.take 4) = src := by
  match src, h with
  | [_, _, _, _], _ => rfl

theorem mem_after_store (k : Kernel) (fd : Handle) (level : Int) (opt : SockOpt)
    (buf : List Nat) (c : Call) :
    ((k.store fd level opt buf).record c).mem fd level opt = buf := by
  simp [Kernel.store, Kernel.record]

/-! ## Each accessor on a rejected and on an accepted call -/

theorem ipv4TOS_rejected (fd : Handle) (k : Kernel) (e : Errno)
    (hf : k.fault (Call.getsockopt fd ianaProtocolIP SockOpt.IP_TOS 4) = some e) :
    ipv4TOS fd k = ((0, some (GoError.SyscallError "getsockopt" (GoError.errno e))),
      k.record (Call.getsockopt fd ianaProtocolIP SockOpt.IP_TOS 4)) := by
  simp [ipv4TOS, Getsockopt_rejected _ _ _ _ _ _ _ hf, os.NewSyscallError]

theorem ipv4TOS_accepted (fd : Handle) (k : Kernel)
    (hf : k.fault (Call.getsockopt fd ianaProtocolIP SockOpt.IP_TOS 4) = none) :
    ipv4TOS fd k = ((int32OfBytes (copy [0, 0, 0, 0]
        ((k.mem fd ianaProtocolIP SockOpt.IP_TOS).take 4)), none),
      k.record (Call.getsockopt fd ianaProtocolIP SockOpt.IP_TOS 4)) := by
  simp [ipv4TOS, Getsockopt_accepted _ _ _ _ _ _ hf, bytesOfInt32]

theorem ipv4TTL_rejected (fd : Handle) (k : Kernel) (e : Errno)
    (hf : k.fault (Call.getsockopt fd ianaProtocolIP SockOpt.IP_TTL 4) = some e) :
    ipv4TTL fd k = ((0, some (GoError.SyscallError "getsockopt" (GoError.errno e))),
      k.record (Call.getsockopt fd ianaProtocolIP SockOpt.IP_TTL 4)) := by
  simp [ipv4TTL, Getsockopt_rejected _ _ _ _ _ _ _ hf, os.NewSyscallError]

theorem ipv4TTL_accepted (fd : Handle) (k : Kernel)
    (hf : k.fault (Call.getsockopt fd ianaProtocolIP SockOpt.IP_TTL 4) = none) :
    ipv4TTL fd k = ((int32OfBytes (copy [0, 0, 0, 0]
        ((k.mem fd ianaProtocolIP SockOpt.IP_TTL).take 4)), none),
      k.record (Call.getsockopt fd ianaProtocolIP SockOpt.IP_TTL 4)) := by
  simp [ipv4TTL, Getsockopt_accepted _ _ _ _ _ _ hf, bytesOfInt32]

theorem ipv4MulticastTTL_rejected (fd : Handle) (k : Kernel) (e : Errno)
    (hf : k.fault (Call.getsockopt fd ianaProtocolIP SockOpt.IP_MULTICAST_TTL 4) = some e) :
    ipv4MulticastTTL fd k = ((0, some (GoError.SyscallError "getsockopt" (GoError.errno e))),
      k.record (Call.getsockopt fd ianaProtocolIP SockOpt.IP_MULTICAST_TTL 4)) := by
  simp [ipv4MulticastTTL, Getsockopt_rejected _ _ _ _ _ _ _ hf, os.NewSyscallError]

theorem ipv4MulticastTTL_accepted (fd : Handle) (k : Kernel)
    (hf : k.fault (Call.getsockopt fd ianaProtocolIP SockOpt.IP_MULTICAST_TTL 4) = none) :
    ipv4MulticastTTL fd k = ((int32OfBytes (copy [0, 0, 0, 0]
        ((k.mem fd ianaProtocolIP SockOpt.IP_MULTICAST_TTL).take 4)), none),
      k.record (Call.getsockopt fd ianaProtocolIP SockOpt.IP_MULTICAST_TTL 4)) := by
  simp [ipv4MulticastTTL, Getsockopt_accepted _ _ _ _ _ _ hf, bytesOfInt32]

theorem setIPv4TOS_rejected (fd : Handle) (v : Int) (k : Kernel) (e : Errno)
    (hf : k.fault (Call.setsockopt fd ianaProtocolIP SockOpt.IP_TOS
      (bytesOfInt32 (int32 v)) 4) = some e) :
    setIPv4TOS fd v k = (some (GoError.SyscallError "setsockopt" (GoError.errno e)),
      k.record (Call.setsockopt fd ianaProtocolIP SockOpt.IP_TOS (bytesOfInt32 (int32 v)) 4)) := by
  simp [setIPv4TOS, Setsockopt_rejected _ _ _ _ _ _ _ hf, os.NewSyscallError]

theorem setIPv4TOS_accepted (fd : Handle) (v : Int) (k : Kernel)
    (hf : k.fault (Call.setsockopt fd ianaProtocolIP SockOpt.IP_TOS
      (bytesOfInt32 (int32 v)) 4) = none) :
    setIPv4TOS fd v k = (none,
      (k.store fd ianaProtocolIP SockOpt.IP_TOS (bytesOfInt32 (int32 v))).record
        (Call.setsockopt fd ianaProtocolIP SockOpt.IP_TOS (bytesOfInt32 (int32 v)) 4)) := by
  have ht : (bytesOfInt32 (int32 v)).take 4 = bytesOfInt32 (int32 v) := rfl
  simp [setIPv4TOS, Setsockopt_accepted _ _ _ _ _ _ hf, ht]

theorem setIPv4TTL_rejected (fd : Handle) (v : Int) (k : Kernel) (e : Errno)
    (hf : k.fault (Call.setsockopt fd ianaProtocolIP SockOpt.IP_TTL
      (bytesOfInt32 (int32 v)) 4) = some e) :
    setIPv4TTL fd v k = (some (GoError.SyscallError "setsockopt" (GoError.errno e)),
      k.record (Call.setsockopt fd ianaProtocolIP SockOpt.IP_TTL (bytesOfInt32 (int32 v)) 4)) := by
  simp [setIPv4TTL, Setsockopt_rejected _ _ _ _ _ _ _ hf, os.NewSyscallError]

theorem setIPv4TTL_accepted (fd : Handle) (v : Int) (k : Kernel)
    (hf : k.fault (Call.setsockopt fd ianaProtocolIP SockOpt.IP_TTL
      (bytesOfInt32 (int32 v)) 4) = none) :
    setIPv4TTL fd v k = (none,
      (k.store fd ianaProtocolIP SockOpt.IP_TTL (bytesOfInt32 (int32 v))).record
        (Call.setsockopt fd ianaProtocolIP SockOpt.IP_TTL (bytesOfInt32 (int32 v)) 4)) := by
  have ht : (bytesOfInt32 (int32 v)).take 4 = bytesOfInt32 (int32 v) := rfl
  simp [setIPv4TTL, Setsockopt_accepted _ _ _ _ _ _ hf, ht]

theorem setIPv4MulticastTTL_rejected (fd : Handle) (v : Int) (k : Kernel) (e : Errno)
    (hf : k.fault (Call.setsockopt fd ianaProtocolIP SockOpt.IP_MULTICAST_TTL
      (bytesOfInt32 (int32 v)) 4) = some e) :
    setIPv4MulticastTTL fd v k = (some (GoError.SyscallError "setsockopt" (GoError.errno e)),
      k.record (Call.setsockopt fd ianaProtocolIP SockOpt.IP_MULTICAST_TTL (bytesOfInt32 (int32 v)) 4)) := by
  simp [setIPv4MulticastTTL, Setsockopt_rejected _ _ _ _ _ _ _ hf, os.NewSyscallError]

theorem setIPv4MulticastTTL_accepted (fd : Handle) (v : Int) (k : Kernel)
    (hf : k.fault (Call.setsockopt fd ianaProtocolIP SockOpt.IP_MULTICAST_TTL
      (bytesOfInt32 (int32 v)) 4) = none) :
    setIPv4MulticastTTL fd v k = (none,
      (k.store fd ianaProtocolIP SockOpt.IP_MULTICAST_TTL (bytesOfInt32 (int32 v))).record
        (Call.setsockopt fd ianaProtocolIP SockOpt.IP_MULTICAST_TTL (bytesOfInt32 (int32 v)) 4)) := by
  have ht : (bytesOfInt32 (int32 v)).take 4 = bytesOfInt32 (int32 v) := rfl
  simp [setIPv4MulticastTTL, Setsockopt_accepted _ _ _ _ _ _ hf, ht]

theorem ipv4MulticastLoopback_rejected (fd : Handle) (k : Kernel) (e : Errno)
    (hf : k.fault (Call.getsockopt fd ianaProtocolIP SockOpt.IP_MULTICAST_LOOP 4) = some e) :
    ipv4MulticastLoopback fd k
      = ((false, some (GoError.SyscallError "getsockopt" (GoError.errno e))),
      k.record (Call.getsockopt fd ianaProtocolIP SockOpt.IP_MULTICAST_LOOP 4)) := by
  simp [ipv4MulticastLoopback, Getsockopt_rejected _ _ _ _ _ _ _ hf, os.NewSyscallError]

theorem ipv4MulticastLoopback_accepted (fd : Handle) (k : Kernel)
    (hf : k.fault (Call.getsockopt fd ianaProtocolIP SockOpt.IP_MULTICAST_LOOP 4) = none) :
    ipv4MulticastLoopback fd k = ((decide (int32OfBytes (copy [0, 0, 0, 0]
        ((k.mem fd ianaProtocolIP SockOpt.IP_MULTICAST_LOOP).take 4)) = 1), none),
      k.record (Call.getsockopt fd ianaProtocolIP SockOpt.IP_MULTICAST_LOOP 4)) := by
  simp [ipv4MulticastLoopback, Getsockopt_accepted _ _ _ _ _ _ hf, bytesOfInt32]

theorem setIPv4MulticastLoopback_rejected (fd : Handle) (v : Bool) (k : Kernel) (e : Errno)
    (hf : k.fault (Call.setsockopt fd ianaProtocolIP SockOpt.IP_MULTICAST_LOOP
      (bytesOfInt32 (int32 (boolint v))) 4) = some e) :
    setIPv4MulticastLoopback fd v k
      = (some (GoError.SyscallError "setsockopt" (GoError.errno e)),
      k.record (Call.setsockopt fd ianaProtocolIP SockOpt.IP_MULTICAST_LOOP
        (bytesOfInt32 (int32 (boolint v))) 4)) := by
  simp [setIPv4MulticastLoopback, Setsockopt_rejected _ _ _ _ _ _ _ hf, os.NewSyscallError]

theorem setIPv4MulticastLoopback_accepted (fd : Handle) (v : Bool) (k : Kernel)
    (hf : k.fault (Call.setsockopt fd ianaProtocolIP SockOpt.IP_MULTICAST_LOOP
      (bytesOfInt32 (int32 (boolint v))) 4) = none) :
    setIPv4MulticastLoopback fd v k = (none,
      (k.store fd ianaProtocolIP SockOpt.IP_MULTICAST_LOOP
        (bytesOfInt32 (int32 (boolint v)))).record
        (Call.setsockopt fd ianaProtocolIP SockOpt.IP_MULTICAST_LOOP
          (bytesOfInt32 (int32 (boolint v))) 4)) := by
  have ht : (bytesOfInt32 (int32 (boolint v))).take 4 = bytesOfInt32 (int32 (boolint v)) := rfl
  simp [setIPv4MulticastLoopback, Setsockopt_accepted _ _ _ _ _ _ hf, ht]

theorem read_back_stored (v : Int) :
    int32OfBytes (copy [0, 0, 0, 0] ((bytesOfInt32 v).take 4)) = int32 v := by
  rw [copy_four 0 0 0 0 (bytesOfInt32 v) rfl, int32OfBytes_bytesOfInt32]

/-! ## The multicast interface and the group membership, case by case -/

theorem ipv4MulticastInterface_rejected (h : Helpers) (fd : Handle) (k : Kernel) (e : Errno)
    (hf : k.fault (Call.getsockopt fd ianaProtocolIP SockOpt.IP_MULTICAST_IF 4) = some e) :
    ipv4MulticastInterface h fd k
      = ((none, some (GoError.SyscallError "getsockopt" (GoError.errno e))),
      k.record (Call.getsockopt fd ianaProtocolIP SockOpt.IP_MULTICAST_IF 4)) := by
  simp [ipv4MulticastInterface, Getsockopt_rejected _ _ _ _ _ _ _ hf, os.NewSyscallError]

theorem ipv4MulticastInterface_accepted (h : Helpers) (fd : Handle) (k : Kernel)
    (hf : k.fault (Call.getsockopt fd ianaProtocolIP SockOpt.IP_MULTICAST_IF 4) = none) :
    ipv4MulticastInterface h fd k
      = (h.netIP4ToInterface (net.IPv4
          ((copy [0, 0, 0, 0] ((k.mem fd ianaProtocolIP SockOpt.IP_MULTICAST_IF).take 4)).getD 0 0)
          ((copy [0, 0, 0, 0] ((k.mem fd ianaProtocolIP SockOpt.IP_MULTICAST_IF).take 4)).getD 1 0)
          ((copy [0, 0, 0, 0] ((k.mem fd ianaProtocolIP SockOpt.IP_MULTICAST_IF).take 4)).getD 2 0)
          ((copy [0, 0, 0, 0] ((k.mem fd ianaProtocolIP SockOpt.IP_MULTICAST_IF).take 4)).getD 3 0)),
      k.record (Call.getsockopt fd ianaProtocolIP SockOpt.IP_MULTICAST_IF 4)) := by
  simp [ipv4MulticastInterface, Getsockopt_accepted _ _ _ _ _ _ hf]

/-- The buffer `setIPv4MulticastInterface` submits for the address `ip`. -/
theorem setIPv4MulticastInterface_unresolved (h : Helpers) (fd : Handle)
    (ifi : Option net.Interface) (k : Kernel) (e : GoError)
    (hr : (h.netInterfaceToIP4 ifi).2 = some e) :
    setIPv4MulticastInterface h fd ifi k
      = (some (GoError.SyscallError "setsockopt" e), k) := by
  unfold setIPv4MulticastInterface
  rcases hh : h.netInterfaceToIP4 ifi with ⟨ip, err⟩
  rw [hh] at hr
  simp only at hr
  subst hr
  simp [os.NewSyscallError]

theorem setIPv4MulticastInterface_rejected (h : Helpers) (fd : Handle)
    (ifi : Option net.Interface) (k : Kernel) (e : Errno)
    (hr : (h.netInterfaceToIP4 ifi).2 = none)
    (hf : k.fault (Call.setsockopt fd ianaProtocolIP SockOpt.IP_MULTICAST_IF
      (copy [0, 0, 0, 0] (sliceBytes ((h.netInterfaceToIP4 ifi).1.bind net.IP.To4))) 4) = some e) :
    setIPv4MulticastInterface h fd ifi k
      = (some (GoError.SyscallError "setsockopt" (GoError.errno e)),
      k.record (Call.setsockopt fd ianaProtocolIP SockOpt.IP_MULTICAST_IF
        (copy [0, 0, 0, 0] (sliceBytes ((h.netInterfaceToIP4 ifi).1.bind net.IP.To4))) 4)) := by
  unfold setIPv4MulticastInterface
  rcases hh : h.netInterfaceToIP4 ifi with ⟨ip, err⟩
  rw [hh] at hr hf
  simp only at hr hf
  subst hr
  simp [Setsockopt_rejected _ _ _ _ _ _ _ hf, os.NewSyscallError]

theorem setIPv4MulticastInterface_accepted (h : Helpers) (fd : Handle)
    (ifi : Option net.Interface) (k : Kernel)
    (hr : (h.netInterfaceToIP4 ifi).2 = none)
    (hf : k.fault (Call.setsockopt fd ianaProtocolIP SockOpt.IP_MULTICAST_IF
      (copy [0, 0, 0, 0] (sliceBytes ((h.netInterfaceToIP4 ifi).1.bind net.IP.To4))) 4) = none) :
    setIPv4MulticastInterface h fd ifi k
      = (none, (k.store fd ianaProtocolIP SockOpt.IP_MULTICAST_IF
          ((copy [0, 0, 0, 0]
            (sliceBytes ((h.netInterfaceToIP4 ifi).1.bind net.IP.To4))).take 4)).record
        (Call.setsockopt fd ianaProtocolIP SockOpt.IP_MULTICAST_IF
          (copy [0, 0, 0, 0]
            (sliceBytes ((h.netInterfaceToIP4 ifi).1.bind net.IP.To4))) 4)) := by
  unfold setIPv4MulticastInterface
  rcases hh : h.netInterfaceToIP4 ifi with ⟨ip, err⟩
  rw [hh] at hr hf
  simp only at hr hf
  subst hr
  simp [Setsockopt_accepted _ _ _ _ _ _ hf]

theorem newIPMreq_short (grp : net.IP) (hl : grp.length < 4) :
    newIPMreq grp = Outcome.indexOutOfRange := by
  match grp, hl with
  | [], _ => rfl
  | [_], _ => rfl
  | [_, _], _ => rfl
  | [_, _, _], _ => rfl

theorem newIPMreq_long (grp : net.IP) (hl : 4 ≤ grp.length) :
    newIPMreq grp = Outcome.returned
      { Multiaddr := grp.take 4, Interface := [0, 0, 0, 0] } := by
  match grp, hl with
  | _ :: _ :: _ :: _ :: _, _ => simp [newIPMreq]

theorem joinIPv4Group_fault (h : Helpers) (fd : Handle) (ifi : Option net.Interface)
    (grp : net.IP) (k : Kernel) (hm : newIPMreq grp = Outcome.indexOutOfRange) :
    joinIPv4Group h fd ifi grp k = (Outcome.indexOutOfRange, k) := by
  simp [joinIPv4Group, hm]

theorem leaveIPv4Group_fault (h : Helpers) (fd : Handle) (ifi : Option net.Interface)
    (grp : net.IP) (k : Kernel) (hm : newIPMreq grp = Outcome.indexOutOfRange) :
    leaveIPv4Group h fd ifi grp k = (Outcome.indexOutOfRange, k) := by
  simp [leaveIPv4Group, hm]

theorem joinIPv4Group_unresolved (h : Helpers) (fd : Handle) (ifi : Option net.Interface)
    (grp : net.IP) (k : Kernel) (m : syscall.IPMreq) (e : GoError)
    (hm : newIPMreq grp = Outcome.returned m) (hr : (h.setSyscallIPMreq m ifi).2 = some e) :
    joinIPv4Group h fd ifi grp k = (Outcome.returned (some e), k) := by
  obtain ⟨f1, f2, f3⟩ := h
  simp only [joinIPv4Group, hm] at hr ⊢
  generalize f3 m ifi = r at hr ⊢
  obtain ⟨m', err⟩ := r
  simp only at hr
  subst hr
  simp

theorem leaveIPv4Group_unresolved (h : Helpers) (fd : Handle) (ifi : Option net.Interface)
    (grp : net.IP) (k : Kernel) (m : syscall.IPMreq) (e : GoError)
    (hm : newIPMreq grp = Outcome.returned m) (hr : (h.setSyscallIPMreq m ifi).2 = some e) :
    leaveIPv4Group h fd ifi grp k = (Outcome.returned (some e), k) := by
  obtain ⟨f1, f2, f3⟩ := h
  simp only [leaveIPv4Group, hm] at hr ⊢
  generalize f3 m ifi = r at hr ⊢
  obtain ⟨m', err⟩ := r
  simp only at hr
  subst hr
  simp

theorem joinIPv4Group_submits (h : Helpers) (fd : Handle) (ifi : Option net.Interface)
    (grp : net.IP) (k : Kernel) (m : syscall.IPMreq)
    (hm : newIPMreq grp = Outcome.returned m) (hr : (h.setSyscallIPMreq m ifi).2 = none) :
    joinIPv4Group h fd ifi grp k
      = (Outcome.returned (os.NewSyscallError "setsockopt"
          (syscall.Setsockopt k fd ianaProtocolIP SockOpt.IP_ADD_MEMBERSHIP
            (h.setSyscallIPMreq m ifi).1.bytes sizeofIPMreq).1),
        (syscall.Setsockopt k fd ianaProtocolIP SockOpt.IP_ADD_MEMBERSHIP
            (h.setSyscallIPMreq m ifi).1.bytes sizeofIPMreq).2) := by
  obtain ⟨f1, f2, f3⟩ := h
  simp only [joinIPv4Group, hm] at hr ⊢
  generalize f3 m ifi = r at hr ⊢
  obtain ⟨m', err⟩ := r
  simp only at hr
  subst hr
  simp only [ne_eq, not_true_eq_false, if_false]
  rcases syscall.Setsockopt k fd ianaProtocolIP SockOpt.IP_ADD_MEMBERSHIP m'.bytes
    sizeofIPMreq with ⟨err, k'⟩
  cases err <;> simp [os.NewSyscallError]

theorem leaveIPv4Group_submits (h : Helpers) (fd : Handle) (ifi : Option net.Interface)
    (grp : net.IP) (k : Kernel) (m : syscall.IPMreq)
    (hm : newIPMreq grp = Outcome.returned m) (hr : (h.setSyscallIPMreq m ifi).2 = none) :
    leaveIPv4Group h fd ifi grp k
      = (Outcome.returned (os.NewSyscallError "setsockopt"
          (syscall.Setsockopt k fd ianaProtocolIP SockOpt.IP_DROP_MEMBERSHIP
            (h.setSyscallIPMreq m ifi).1.bytes sizeofIPMreq).1),
        (syscall.Setsockopt k fd ianaProtocolIP SockOpt.IP_DROP_MEMBERSHIP
            (h.setSyscallIPMreq m ifi).1.bytes sizeofIPMreq).2) := by
  obtain ⟨f1, f2, f3⟩ := h
  simp only [leaveIPv4Group, hm] at hr ⊢
  generalize f3 m ifi = r at hr ⊢
  obtain ⟨m', err⟩ := r
  simp only at hr
  subst hr
  simp only [ne_eq, not_true_eq_false, if_false]
  rcases syscall.Setsockopt k fd ianaProtocolIP SockOpt.IP_DROP_MEMBERSHIP m'.bytes
    sizeofIPMreq with ⟨err, k'⟩
  cases err <;> simp [os.NewSyscallError]

/-! ## Options Windows does not support -/

/-- C1: each of the eight capability-gated operations returns the fixed
not-supported error `syscall.EWINDOWS`, the getters return `false`, and the kernel
(its option buffers and its call trace) is left exactly as it was: the primitive
is never invoked. -/
theorem gated_operations_not_supported (fd : Handle) (v : Bool) (k : Kernel) :
    ipv4ReceiveTTL fd k = ((false, some syscall.EWINDOWS), k)
    ∧ setIPv4ReceiveTTL fd v k = (some syscall.EWINDOWS, k)
    ∧ ipv4ReceiveDestinationAddress fd k = ((false, some syscall.EWINDOWS), k)
    ∧ setIPv4ReceiveDestinationAddress fd v k = (some syscall.EWINDOWS, k)
    ∧ ipv4HeaderPrepend fd k = ((false, some syscall.EWINDOWS), k)
    ∧ setIPv4HeaderPrepend fd v k = (some syscall.EWINDOWS, k)
    ∧ ipv4ReceiveInterface fd k = ((false, some syscall.EWINDOWS), k)
    ∧ setIPv4ReceiveInterface fd v k = (some syscall.EWINDOWS, k) :=
  ⟨rfl, rfl, rfl, rfl, rfl, rfl, rfl, rfl⟩

/-! ## Round trips of the scalar options -/

/-- C3: for `v` in `[0,255]`, on a kernel that accepts the two calls,
`setIPv4TTL` followed by `ipv4TTL` returns `(v, nil)` and `setIPv4TOS` followed by
`ipv4TOS` returns `(v, nil)`; the setter and the getter of each pair address the
same level and option, as the trace of the two calls shows. -/
theorem ttl_tos_round_trip (h : Handle) (v : Int) (k : Kernel)
    (hv0 : 0 ≤ v) (hv1 : v ≤ 255)
    (hsetTTL : k.fault (Call.setsockopt h ianaProtocolIP SockOpt.IP_TTL
      (bytesOfInt32 (int32 v)) 4) = none)
    (hgetTTL : k.fault (Call.getsockopt h ianaProtocolIP SockOpt.IP_TTL 4) = none)
    (hsetTOS : k.fault (Call.setsockopt h ianaProtocolIP SockOpt.IP_TOS
      (bytesOfInt32 (int32 v)) 4) = none)
    (hgetTOS : k.fault (Call.getsockopt h ianaProtocolIP SockOpt.IP_TOS 4) = none) :
    ((setIPv4TTL h v k).1 = none
      ∧ (ipv4TTL h (setIPv4TTL h v k).2).1 = (v, none)
      ∧ (ipv4TTL h (setIPv4TTL h v k).2).2.trace = k.trace ++
          [Call.setsockopt h ianaProtocolIP SockOpt.IP_TTL (bytesOfInt32 v) 4,
           Call.getsockopt h ianaProtocolIP SockOpt.IP_TTL 4])
    ∧ ((setIPv4TOS h v k).1 = none
      ∧ (ipv4TOS h (setIPv4TOS h v k).2).1 = (v, none)
      ∧ (ipv4TOS h (setIPv4TOS h v k).2).2.trace = k.trace ++
          [Call.setsockopt h ianaProtocolIP SockOpt.IP_TOS (bytesOfInt32 v) 4,
           Call.getsockopt h ianaProtocolIP SockOpt.IP_TOS 4]) := by
  have hv : int32 v = v := int32_of_inRange v (by omega) (by omega)
  rw [hv] at hsetTTL hsetTOS
  constructor
  · have e1 := setIPv4TTL_accepted h v k (by rw [hv]; exact hsetTTL)
    rw [hv] at e1
    rw [e1]
    have e2 := ipv4TTL_accepted h ((k.store h ianaProtocolIP SockOpt.IP_TTL
      (bytesOfInt32 v)).record (Call.setsockopt h ianaProtocolIP SockOpt.IP_TTL
        (bytesOfInt32 v) 4)) hgetTTL
    rw [e2, mem_after_store, read_back_stored, hv]
    exact ⟨rfl, rfl, by simp [Kernel.record, Kernel.store]⟩
  · have e1 := setIPv4TOS_accepted h v k (by rw [hv]; exact hsetTOS)
    rw [hv] at e1
    rw [e1]
    have e2 := ipv4TOS_accepted h ((k.store h ianaProtocolIP SockOpt.IP_TOS
      (bytesOfInt32 v)).record (Call.setsockopt h ianaProtocolIP SockOpt.IP_TOS
        (bytesOfInt32 v) 4)) hgetTOS
    rw [e2, mem_after_store, read_back_stored, hv]
    exact ⟨rfl, rfl, by simp [Kernel.record, Kernel.store]⟩

/-- C3 at `h = 7`, `v = 200` on the kernel that accepts every call. -/
theorem ttl_tos_round_trip_witness :
    ((0 : Int) ≤ 200 ∧ (200 : Int) ≤ 255)
    ∧ (ipv4TTL 7 (setIPv4TTL 7 200 quietKernel).2).1 = (200, none)
    ∧ (ipv4TOS 7 (setIPv4TOS 7 200 quietKernel).2).1 = (200, none) :=
  ⟨by decide,
   (ttl_tos_round_trip 7 200 quietKernel (by decide) (by decide) rfl rfl rfl rfl).1.2.1,
   (ttl_tos_round_trip 7 200 quietKernel (by decide) (by decide) rfl rfl rfl rfl).2.2.1⟩

/-- C4: on a kernel that accepts the two calls, `setIPv4MulticastLoopback(h, b)`
followed by `ipv4MulticastLoopback(h)` returns `(b, nil)`, for `b = true` and for
`b = false`. -/
theorem multicast_loopback_round_trip (h : Handle) (b : Bool) (k : Kernel)
    (hset : k.fault (Call.setsockopt h ianaProtocolIP SockOpt.IP_MULTICAST_LOOP
      (bytesOfInt32 (int32 (boolint b))) 4) = none)
    (hget : k.fault (Call.getsockopt h ianaProtocolIP SockOpt.IP_MULTICAST_LOOP 4) = none) :
    (setIPv4MulticastLoopback h b k).1 = none
    ∧ (ipv4MulticastLoopback h (setIPv4MulticastLoopback h b k).2).1 = (b, none) := by
  rw [setIPv4MulticastLoopback_accepted h b k hset]
  have e2 := ipv4MulticastLoopback_accepted h ((k.store h ianaProtocolIP
    SockOpt.IP_MULTICAST_LOOP (bytesOfInt32 (int32 (boolint b)))).record
      (Call.setsockopt h ianaProtocolIP SockOpt.IP_MULTICAST_LOOP
        (bytesOfInt32 (int32 (boolint b))) 4)) hget
  rw [e2, mem_after_store, read_back_stored, int32_idem]
  refine ⟨rfl, ?_⟩
  cases b <;> simp [boolint, int32]

/-- C4 at `h = 7` on the kernel that accepts every call, for both booleans. -/
theorem multicast_loopback_round_trip_witness :
    (ipv4MulticastLoopback 7 (setIPv4MulticastLoopback 7 true quietKernel).2).1 = (true, none)
    ∧ (ipv4MulticastLoopback 7 (setIPv4MulticastLoopback 7 false quietKernel).2).1
        = (false, none) :=
  ⟨(multicast_loopback_round_trip 7 true quietKernel rfl rfl).2,
   (multicast_loopback_round_trip 7 false quietKernel rfl rfl).2⟩

/-- C10: when the kernel accepts the read of IP_MULTICAST_LOOP and holds the 32-bit
value `kv` for it, `ipv4MulticastLoopback` returns a nil error and reports `true`
if and only if `kv` is exactly 1. -/
theorem multicast_loopback_true_iff_one (fd : Handle) (kv : Int) (k : Kernel)
    (hlo : -2147483648 ≤ kv) (hhi : kv < 2147483648)
    (hmem : k.mem fd ianaProtocolIP SockOpt.IP_MULTICAST_LOOP = bytesOfInt32 kv)
    (hget : k.fault (Call.getsockopt fd ianaProtocolIP SockOpt.IP_MULTICAST_LOOP 4) = none) :
    ((ipv4MulticastLoopback fd k).1.1 = true ↔ kv = 1)
    ∧ (ipv4MulticastLoopback fd k).1.2 = none := by
  rw [ipv4MulticastLoopback_accepted fd k hget, hmem, read_back_stored,
    int32_of_inRange kv hlo hhi]
  simp

/-- C10 at a kernel holding the value 2 and at one holding the value -1: both
are reported as `false` with a nil error. -/
theorem multicast_loopback_true_iff_one_witness :
    (ipv4MulticastLoopback 7 (holdingKernel (bytesOfInt32 2))).1 = (false, none)
    ∧ (ipv4MulticastLoopback 7 (holdingKernel (bytesOfInt32 (-1)))).1 = (false, none) := by
  have t2 := multicast_loopback_true_iff_one 7 2 (holdingKernel (bytesOfInt32 2))
    (by decide) (by decide) rfl rfl
  have t1 := multicast_loopback_true_iff_one 7 (-1) (holdingKernel (bytesOfInt32 (-1)))
    (by decide) (by decide) rfl rfl
  refine ⟨Prod.ext ?_ t2.2, Prod.ext ?_ t1.2⟩
  · exact Bool.eq_false_iff.mpr (fun hc => absurd (t2.1.mp hc) (by decide))
  · exact Bool.eq_false_iff.mpr (fun hc => absurd (t1.1.mp hc) (by decide))

/-! ## Values outside 0–255 -/

/-- C8, as the code has it: each scalar setter makes exactly one call that submits
the four bytes of `int32(v)`, which decode to `int32(v)`; for every `v` of the signed
32-bit range, inside 0–255 or not, they decode to `v` itself. The setter's own
error is the kernel's verdict on that call, wrapped: the layer neither clamps nor
rejects. -/
theorem scalar_setters_submit_int32 (fd : Handle) (v : Int) (k : Kernel) :
    ((setIPv4TTL fd v k).2.trace = k.trace ++
        [Call.setsockopt fd ianaProtocolIP SockOpt.IP_TTL (bytesOfInt32 (int32 v)) 4]
      ∧ (setIPv4TTL fd v k).1 = os.NewSyscallError "setsockopt"
          ((k.fault (Call.setsockopt fd ianaProtocolIP SockOpt.IP_TTL
            (bytesOfInt32 (int32 v)) 4)).map GoError.errno))
    ∧ ((setIPv4TOS fd v k).2.trace = k.trace ++
        [Call.setsockopt fd ianaProtocolIP SockOpt.IP_TOS (bytesOfInt32 (int32 v)) 4]
      ∧ (setIPv4TOS fd v k).1 = os.NewSyscallError "setsockopt"
          ((k.fault (Call.setsockopt fd ianaProtocolIP SockOpt.IP_TOS
            (bytesOfInt32 (int32 v)) 4)).map GoError.errno))
    ∧ ((setIPv4MulticastTTL fd v k).2.trace = k.trace ++
        [Call.setsockopt fd ianaProtocolIP SockOpt.IP_MULTICAST_TTL (bytesOfInt32 (int32 v)) 4]
      ∧ (setIPv4MulticastTTL fd v k).1 = os.NewSyscallError "setsockopt"
          ((k.fault (Call.setsockopt fd ianaProtocolIP SockOpt.IP_MULTICAST_TTL
            (bytesOfInt32 (int32 v)) 4)).map GoError.errno))
    ∧ int32OfBytes (bytesOfInt32 (int32 v)) = int32 v
    ∧ (-2147483648 ≤ v → v < 2147483648 → int32OfBytes (bytesOfInt32 (int32 v)) = v) := by
  refine ⟨?_, ?_, ?_, ?_, ?_⟩
  · cases hf : k.fault (Call.setsockopt fd ianaProtocolIP SockOpt.IP_TTL
        (bytesOfInt32 (int32 v)) 4) with
    | none => rw [setIPv4TTL_accepted fd v k hf]; exact ⟨rfl, rfl⟩
    | some e => rw [setIPv4TTL_rejected fd v k e hf]; exact ⟨rfl, rfl⟩
  · cases hf : k.fault (Call.setsockopt fd ianaProtocolIP SockOpt.IP_TOS
        (bytesOfInt32 (int32 v)) 4) with
    | none => rw [setIPv4TOS_accepted fd v k hf]; exact ⟨rfl, rfl⟩
    | some e => rw [setIPv4TOS_rejected fd v k e hf]; exact ⟨rfl, rfl⟩
  · cases hf : k.fault (Call.setsockopt fd ianaProtocolIP SockOpt.IP_MULTICAST_TTL
        (bytesOfInt32 (int32 v)) 4) with
    | none => rw [setIPv4MulticastTTL_accepted fd v k hf]; exact ⟨rfl, rfl⟩
    | some e => rw [setIPv4MulticastTTL_rejected fd v k e hf]; exact ⟨rfl, rfl⟩
  · rw [int32OfBytes_bytesOfInt32, int32_idem]
  · intro h0 h1
    rw [int32OfBytes_bytesOfInt32, int32_idem, int32_of_inRange v h0 h1]

/-- C8 as amended, at `v = 300` and `v = -1`: both lie outside 0–255 and both are
submitted unchanged. -/
theorem scalar_setters_submit_int32_witness :
    ((-2147483648 : Int) ≤ 300 ∧ (300 : Int) < 2147483648)
    ∧ int32OfBytes (bytesOfInt32 (int32 300)) = 300
    ∧ int32OfBytes (bytesOfInt32 (int32 (-1))) = -1
    ∧ (setIPv4TTL 7 300 quietKernel).2.trace =
        [Call.setsockopt 7 ianaProtocolIP SockOpt.IP_TTL (bytesOfInt32 (int32 300)) 4] :=
  ⟨by decide,
   (scalar_setters_submit_int32 7 300 quietKernel).2.2.2.2 (by decide) (by decide),
   (scalar_setters_submit_int32 7 (-1) quietKernel).2.2.2.2 (by decide) (by decide),
   (scalar_setters_submit_int32 7 300 quietKernel).1.1⟩

/-- C8 as stated fails where Go's `int` is wider than 32 bits: `setIPv4TTL(1, 1<<32)`
submits the bytes 0 0 0 0, which decode to 0 and not to 4294967296. -/
theorem scalar_setter_truncates_wide_int :
    (setIPv4TTL 1 4294967296 quietKernel).2.trace
        = [Call.setsockopt 1 ianaProtocolIP SockOpt.IP_TTL [0, 0, 0, 0] 4]
    ∧ (setIPv4TTL 1 4294967296 quietKernel).1 = none
    ∧ int32OfBytes [0, 0, 0, 0] = 0
    ∧ int32OfBytes [0, 0, 0, 0] ≠ 4294967296 := by
  decide

/-! ## Group membership -/

/-- C9: the membership-request record of `joinIPv4Group` and `leaveIPv4Group` is
built if and only if `grp` has at least 4 bytes; its group field is then
`grp[0], grp[1], grp[2], grp[3]` in that order, so a 4-byte address is embedded
unchanged, and this record is the one handed on to `setSyscallIPMreq` and then
to the kernel; for a shorter slice both operations fault with the kernel
untouched, and for no other slice do they fault. -/
theorem membership_record_needs_four_bytes (h : Helpers) (fd : Handle)
    (ifi : Option net.Interface) (grp : net.IP) (k : Kernel) :
    ((∃ m, newIPMreq grp = Outcome.returned m) ↔ 4 ≤ grp.length)
    ∧ (∀ m, newIPMreq grp = Outcome.returned m →
        m.Multiaddr = [grp.getD 0 0, grp.getD 1 0, grp.getD 2 0, grp.getD 3 0]
        ∧ m.Multiaddr = grp.take 4)
    ∧ (grp.length = 4 →
        newIPMreq grp = Outcome.returned { Multiaddr := grp, Interface := [0, 0, 0, 0] })
    ∧ (grp.length < 4 →
        joinIPv4Group h fd ifi grp k = (Outcome.indexOutOfRange, k)
        ∧ leaveIPv4Group h fd ifi grp k = (Outcome.indexOutOfRange, k))
    ∧ (4 ≤ grp.length →
        (joinIPv4Group h fd ifi grp k).1 ≠ Outcome.indexOutOfRange
        ∧ (leaveIPv4Group h fd ifi grp k).1 ≠ Outcome.indexOutOfRange)
    ∧ (4 ≤ grp.length →
        (h.setSyscallIPMreq { Multiaddr := grp.take 4, Interface := [0, 0, 0, 0] } ifi).2 = none →
        (joinIPv4Group h fd ifi grp k).2.trace = k.trace ++
          [Call.setsockopt fd ianaProtocolIP SockOpt.IP_ADD_MEMBERSHIP
            (h.setSyscallIPMreq
              { Multiaddr := grp.take 4, Interface := [0, 0, 0, 0] } ifi).1.bytes sizeofIPMreq]
        ∧ (leaveIPv4Group h fd ifi grp k).2.trace = k.trace ++
          [Call.setsockopt fd ianaProtocolIP SockOpt.IP_DROP_MEMBERSHIP
            (h.setSyscallIPMreq
              { Multiaddr := grp.take 4, Interface := [0, 0, 0, 0] } ifi).1.bytes
                sizeofIPMreq]) := by
  refine ⟨?_, ?_, ?_, ?_, ?_, ?_⟩
  · constructor
    · rintro ⟨m, hm⟩
      by_contra hlt
      rw [newIPMreq_short grp (by omega)] at hm
      exact Outcome.noConfusion hm
    · intro hl
      exact ⟨_, newIPMreq_long grp hl⟩
  · intro m hm
    have hl : 4 ≤ grp.length := by
      by_contra hlt
      rw [newIPMreq_short grp (by omega)] at hm
      exact Outcome.noConfusion hm
    rw [newIPMreq_long grp hl] at hm
    injection hm with hm
    subst hm
    match grp, hl with
    | _ :: _ :: _ :: _ :: _, _ => exact ⟨rfl, rfl⟩
  · intro hl
    rw [newIPMreq_long grp (by omega), List.take_of_length_le (by omega)]
  · intro hl
    exact ⟨joinIPv4Group_fault h fd ifi grp k (newIPMreq_short grp hl),
      leaveIPv4Group_fault h fd ifi grp k (newIPMreq_short grp hl)⟩
  · intro hl
    have hm := newIPMreq_long grp hl
    constructor
    · cases hr : (h.setSyscallIPMreq
          { Multiaddr := grp.take 4, Interface := [0, 0, 0, 0] } ifi).2 with
      | none => rw [joinIPv4Group_submits h fd ifi grp k _ hm hr]; exact Outcome.noConfusion
      | some e => rw [joinIPv4Group_unresolved h fd ifi grp k _ e hm hr]; exact Outcome.noConfusion
    · cases hr : (h.setSyscallIPMreq
          { Multiaddr := grp.take 4, Interface := [0, 0, 0, 0] } ifi).2 with
      | none => rw [leaveIPv4Group_submits h fd ifi grp k _ hm hr]; exact Outcome.noConfusion
      | some e => rw [leaveIPv4Group_unresolved h fd ifi grp k _ e hm hr]; exact Outcome.noConfusion
  · intro hl hr
    have hm := newIPMreq_long grp hl
    rw [joinIPv4Group_submits h fd ifi grp k _ hm hr,
      leaveIPv4Group_submits h fd ifi grp k _ hm hr]
    exact ⟨Setsockopt_trace _ _ _ _ _ _, Setsockopt_trace _ _ _ _ _ _⟩

/-- C9 at the 4-byte group 224.0.0.1 and at the 3-byte slice 224 0 0. -/
theorem membership_record_needs_four_bytes_witness :
    (([224, 0, 0, 1] : net.IP).length = 4 ∧ ([224, 0, 0] : net.IP).length < 4)
    ∧ newIPMreq [224, 0, 0, 1]
        = Outcome.returned { Multiaddr := [224, 0, 0, 1], Interface := [0, 0, 0, 0] }
    ∧ joinIPv4Group (tableHelpers oneAddress) 5 (some eth0) [224, 0, 0] quietKernel
        = (Outcome.indexOutOfRange, quietKernel)
    ∧ leaveIPv4Group (tableHelpers oneAddress) 5 (some eth0) [224, 0, 0] quietKernel
        = (Outcome.indexOutOfRange, quietKernel) :=
  ⟨by decide,
   (membership_record_needs_four_bytes (tableHelpers oneAddress) 5 (some eth0)
      [224, 0, 0, 1] quietKernel).2.2.1 rfl,
   ((membership_record_needs_four_bytes (tableHelpers oneAddress) 5 (some eth0)
      [224, 0, 0] quietKernel).2.2.2.1 (by decide)).1,
   ((membership_record_needs_four_bytes (tableHelpers oneAddress) 5 (some eth0)
      [224, 0, 0] quietKernel).2.2.2.1 (by decide)).2⟩

/-- C5: `joinIPv4Group` and `leaveIPv4Group` build the same record from `grp`,
hand it to `setSyscallIPMreq` with the same interface, fault alike and fail with
the same error when the construction fails, and otherwise each make one
submission of the same record bytes with the same length to the same socket and
level: IP_ADD_MEMBERSHIP for join, IP_DROP_MEMBERSHIP for leave. -/
theorem join_leave_share_request (h : Helpers) (fd : Handle) (ifi : Option net.Interface)
    (grp : net.IP) (k : Kernel) :
    (newIPMreq grp = Outcome.indexOutOfRange →
      joinIPv4Group h fd ifi grp k = (Outcome.indexOutOfRange, k)
      ∧ leaveIPv4Group h fd ifi grp k = (Outcome.indexOutOfRange, k))
    ∧ (∀ m, newIPMreq grp = Outcome.returned m →
      (∀ e, (h.setSyscallIPMreq m ifi).2 = some e →
        joinIPv4Group h fd ifi grp k = (Outcome.returned (some e), k)
        ∧ leaveIPv4Group h fd ifi grp k = (Outcome.returned (some e), k))
      ∧ ((h.setSyscallIPMreq m ifi).2 = none →
        (joinIPv4Group h fd ifi grp k).2.trace = k.trace ++
          [Call.setsockopt fd ianaProtocolIP SockOpt.IP_ADD_MEMBERSHIP
            (h.setSyscallIPMreq m ifi).1.bytes sizeofIPMreq]
        ∧ (leaveIPv4Group h fd ifi grp k).2.trace = k.trace ++
          [Call.setsockopt fd ianaProtocolIP SockOpt.IP_DROP_MEMBERSHIP
            (h.setSyscallIPMreq m ifi).1.bytes sizeofIPMreq])) := by
  refine ⟨fun hm => ⟨joinIPv4Group_fault h fd ifi grp k hm,
    leaveIPv4Group_fault h fd ifi grp k hm⟩, fun m hm => ⟨fun e hr => ?_, fun hr => ?_⟩⟩
  · exact ⟨joinIPv4Group_unresolved h fd ifi grp k m e hm hr,
      leaveIPv4Group_unresolved h fd ifi grp k m e hm hr⟩
  · rw [joinIPv4Group_submits h fd ifi grp k m hm hr,
      leaveIPv4Group_submits h fd ifi grp k m hm hr]
    exact ⟨Setsockopt_trace _ _ _ _ _ _, Setsockopt_trace _ _ _ _ _ _⟩

/-- C5 on the host whose interface `eth0` has the address 192.168.1.10, for the
group 224.0.0.1: the two submissions carry the same eight bytes. -/
theorem join_leave_share_request_witness :
    newIPMreq [224, 0, 0, 1]
        = Outcome.returned { Multiaddr := [224, 0, 0, 1], Interface := [0, 0, 0, 0] }
    ∧ (joinIPv4Group (tableHelpers oneAddress) 5 (some eth0) [224, 0, 0, 1] quietKernel).2.trace
        = [Call.setsockopt 5 ianaProtocolIP SockOpt.IP_ADD_MEMBERSHIP
            [224, 0, 0, 1, 192, 168, 1, 10] 8]
    ∧ (leaveIPv4Group (tableHelpers oneAddress) 5 (some eth0) [224, 0, 0, 1] quietKernel).2.trace
        = [Call.setsockopt 5 ianaProtocolIP SockOpt.IP_DROP_MEMBERSHIP
            [224, 0, 0, 1, 192, 168, 1, 10] 8] :=
  ⟨rfl,
   (((join_leave_share_request (tableHelpers oneAddress) 5 (some eth0) [224, 0, 0, 1]
      quietKernel).2 _ rfl).2 rfl).1,
   (((join_leave_share_request (tableHelpers oneAddress) 5 (some eth0) [224, 0, 0, 1]
      quietKernel).2 _ rfl).2 rfl).2⟩

/-! ## Failed interface resolution -/

/-- C6 at the failing input: on a host whose interface `eth0` has no IPv4 address,
`netInterfaceToIP4` fails with the lookup error; `setIPv4MulticastInterface`
makes no kernel call and yet returns that error wrapped as a syscall error named
"setsockopt", while `joinIPv4Group` and `leaveIPv4Group` return the lookup error
of `setSyscallIPMreq` as it is. -/
theorem setIPv4MulticastInterface_labels_lookup_error_setsockopt :
    (tableHelpers noAddress).netInterfaceToIP4 (some eth0) = (none, some errNoSuchInterface)
    ∧ (setIPv4MulticastInterface (tableHelpers noAddress) 5 (some eth0) quietKernel).1
        = some (GoError.SyscallError "setsockopt" errNoSuchInterface)
    ∧ (setIPv4MulticastInterface (tableHelpers noAddress) 5 (some eth0) quietKernel).2.trace = []
    ∧ (joinIPv4Group (tableHelpers noAddress) 5 (some eth0) [224, 0, 0, 1] quietKernel).1
        = Outcome.returned (some errNoSuchInterface)
    ∧ (leaveIPv4Group (tableHelpers noAddress) 5 (some eth0) [224, 0, 0, 1] quietKernel).1
        = Outcome.returned (some errNoSuchInterface) := by
  decide

/-! ## Kernel failures -/

theorem setterVerdict_of_Setsockopt (k : Kernel) (fd : Handle) (level : Int) (opt : SockOpt)
    (buf : List Nat) (l : Nat) :
    setterVerdict k (Call.setsockopt fd level opt buf l)
      (os.NewSyscallError "setsockopt" (syscall.Setsockopt k fd level opt buf l).1)
      (syscall.Setsockopt k fd level opt buf l).2 := by
  refine ⟨Setsockopt_trace _ _ _ _ _ _, fun e he => ?_, fun he => ?_⟩
  · rw [Setsockopt_rejected _ _ _ _ _ _ _ he]; rfl
  · rw [Setsockopt_accepted _ _ _ _ _ _ he]; rfl

/-- C2, as the code has it: every accessor that reaches the kernel makes exactly one
call of the primitive; a rejection `e` comes back as the zero value with the
syscall error `getsockopt: e` (getters) or as the syscall error `setsockopt: e`
(setters); an accepted call gives a nil error, except that `ipv4MulticastInterface`
then returns what `netIP4ToInterface` answers for `net.IPv4` of the four bytes the
kernel wrote into the buffer. `setIPv4MulticastInterface`, `joinIPv4Group` and
`leaveIPv4Group` reach the kernel only when the interface resolution succeeded and,
for the last two, the record was built; otherwise they leave the kernel untouched,
join and leave faulting alike or returning the resolution error as it is. -/
theorem kernel_verdict_is_wrapped (h : Helpers) (fd : Handle) (v : Int) (b : Bool)
    (ifi : Option net.Interface) (grp : net.IP) (k : Kernel) :
    (getterVerdict 0 k (Call.getsockopt fd ianaProtocolIP SockOpt.IP_TOS 4) (ipv4TOS fd k)
      ∧ getterVerdict 0 k (Call.getsockopt fd ianaProtocolIP SockOpt.IP_TTL 4) (ipv4TTL fd k)
      ∧ getterVerdict 0 k (Call.getsockopt fd ianaProtocolIP SockOpt.IP_MULTICAST_TTL 4)
          (ipv4MulticastTTL fd k)
      ∧ getterVerdict false k (Call.getsockopt fd ianaProtocolIP SockOpt.IP_MULTICAST_LOOP 4)
          (ipv4MulticastLoopback fd k))
    ∧ (setterVerdict k
          (Call.setsockopt fd ianaProtocolIP SockOpt.IP_TOS (bytesOfInt32 (int32 v)) 4)
          (setIPv4TOS fd v k).1 (setIPv4TOS fd v k).2
      ∧ setterVerdict k
          (Call.setsockopt fd ianaProtocolIP SockOpt.IP_TTL (bytesOfInt32 (int32 v)) 4)
          (setIPv4TTL fd v k).1 (setIPv4TTL fd v k).2
      ∧ setterVerdict k
          (Call.setsockopt fd ianaProtocolIP SockOpt.IP_MULTICAST_TTL (bytesOfInt32 (int32 v)) 4)
          (setIPv4MulticastTTL fd v k).1 (setIPv4MulticastTTL fd v k).2
      ∧ setterVerdict k
          (Call.setsockopt fd ianaProtocolIP SockOpt.IP_MULTICAST_LOOP
            (bytesOfInt32 (int32 (boolint b))) 4)
          (setIPv4MulticastLoopback fd b k).1 (setIPv4MulticastLoopback fd b k).2)
    ∧ ((ipv4MulticastInterface h fd k).2.trace
          = k.trace ++ [Call.getsockopt fd ianaProtocolIP SockOpt.IP_MULTICAST_IF 4]
      ∧ (∀ e, k.fault (Call.getsockopt fd ianaProtocolIP SockOpt.IP_MULTICAST_IF 4) = some e →
          (ipv4MulticastInterface h fd k).1
            = (none, some (GoError.SyscallError "getsockopt" (GoError.errno e))))
      ∧ (k.fault (Call.getsockopt fd ianaProtocolIP SockOpt.IP_MULTICAST_IF 4) = none →
          (ipv4MulticastInterface h fd k).1 = h.netIP4ToInterface (net.IPv4
            ((copy [0, 0, 0, 0]
              ((k.mem fd ianaProtocolIP SockOpt.IP_MULTICAST_IF).take 4)).getD 0 0)
            ((copy [0, 0, 0, 0]
              ((k.mem fd ianaProtocolIP SockOpt.IP_MULTICAST_IF).take 4)).getD 1 0)
            ((copy [0, 0, 0, 0]
              ((k.mem fd ianaProtocolIP SockOpt.IP_MULTICAST_IF).take 4)).getD 2 0)
            ((copy [0, 0, 0, 0]
              ((k.mem fd ianaProtocolIP SockOpt.IP_MULTICAST_IF).take 4)).getD 3 0))))
    ∧ (((h.netInterfaceToIP4 ifi).2 = none →
          setterVerdict k
            (Call.setsockopt fd ianaProtocolIP SockOpt.IP_MULTICAST_IF
              (copy [0, 0, 0, 0] (sliceBytes ((h.netInterfaceToIP4 ifi).1.bind net.IP.To4))) 4)
            (setIPv4MulticastInterface h fd ifi k).1 (setIPv4MulticastInterface h fd ifi k).2)
      ∧ ((h.netInterfaceToIP4 ifi).2 ≠ none → (setIPv4MulticastInterface h fd ifi k).2 = k))
    ∧ (newIPMreq grp = Outcome.indexOutOfRange →
        joinIPv4Group h fd ifi grp k = (Outcome.indexOutOfRange, k)
        ∧ leaveIPv4Group h fd ifi grp k = (Outcome.indexOutOfRange, k))
    ∧ (∀ m, newIPMreq grp = Outcome.returned m →
        ((h.setSyscallIPMreq m ifi).2 = none →
          (∃ err, (joinIPv4Group h fd ifi grp k).1 = Outcome.returned err
            ∧ setterVerdict k
              (Call.setsockopt fd ianaProtocolIP SockOpt.IP_ADD_MEMBERSHIP
                (h.setSyscallIPMreq m ifi).1.bytes sizeofIPMreq)
              err (joinIPv4Group h fd ifi grp k).2)
          ∧ (∃ err, (leaveIPv4Group h fd ifi grp k).1 = Outcome.returned err
            ∧ setterVerdict k
              (Call.setsockopt fd ianaProtocolIP SockOpt.IP_DROP_MEMBERSHIP
                (h.setSyscallIPMreq m ifi).1.bytes sizeofIPMreq)
              err (leaveIPv4Group h fd ifi grp k).2))
        ∧ (∀ e, (h.setSyscallIPMreq m ifi).2 = some e →
          joinIPv4Group h fd ifi grp k = (Outcome.returned (some e), k)
          ∧ leaveIPv4Group h fd ifi grp k = (Outcome.returned (some e), k))) := by
  refine ⟨⟨?_, ?_, ?_, ?_⟩, ⟨?_, ?_, ?_, ?_⟩, ⟨?_, ?_, ?_⟩, ⟨?_, ?_⟩, ?_, ?_⟩
  · refine ⟨?_, fun e he => ?_, fun he => ?_⟩
    · cases he : k.fault (Call.getsockopt fd ianaProtocolIP SockOpt.IP_TOS 4) with
      | none => rw [ipv4TOS_accepted fd k he]; rfl
      | some e => rw [ipv4TOS_rejected fd k e he]; rfl
    · rw [ipv4TOS_rejected fd k e he]
    · rw [ipv4TOS_accepted fd k he]
  · refine ⟨?_, fun e he => ?_, fun he => ?_⟩
    · cases he : k.fault (Call.getsockopt fd ianaProtocolIP SockOpt.IP_TTL 4) with
      | none => rw [ipv4TTL_accepted fd k he]; rfl
      | some e => rw [ipv4TTL_rejected fd k e he]; rfl
    · rw [ipv4TTL_rejected fd k e he]
    · rw [ipv4TTL_accepted fd k he]
  · refine ⟨?_, fun e he => ?_, fun he => ?_⟩
    · cases he : k.fault (Call.getsockopt fd ianaProtocolIP SockOpt.IP_MULTICAST_TTL 4) with
      | none => rw [ipv4MulticastTTL_accepted fd k he]; rfl
      | some e => rw [ipv4MulticastTTL_rejected fd k e he]; rfl
    · rw [ipv4MulticastTTL_rejected fd k e he]
    · rw [ipv4MulticastTTL_accepted fd k he]
  · refine ⟨?_, fun e he => ?_, fun he => ?_⟩
    · cases he : k.fault (Call.getsockopt fd ianaProtocolIP SockOpt.IP_MULTICAST_LOOP 4) with
      | none => rw [ipv4MulticastLoopback_accepted fd k he]; rfl
      | some e => rw [ipv4MulticastLoopback_rejected fd k e he]; rfl
    · rw [ipv4MulticastLoopback_rejected fd k e he]
    · rw [ipv4MulticastLoopback_accepted fd k he]
  · refine ⟨?_, fun e he => ?_, fun he => ?_⟩
    · cases he : k.fault (Call.setsockopt fd ianaProtocolIP SockOpt.IP_TOS
          (bytesOfInt32 (int32 v)) 4) with
      | none => rw [setIPv4TOS_accepted fd v k he]; rfl
      | some e => rw [setIPv4TOS_rejected fd v k e he]; rfl
    · rw [setIPv4TOS_rejected fd v k e he]
    · rw [setIPv4TOS_accepted fd v k he]
  · refine ⟨?_, fun e he => ?_, fun he => ?_⟩
    · cases he : k.fault (Call.setsockopt fd ianaProtocolIP SockOpt.IP_TTL
          (bytesOfInt32 (int32 v)) 4) with
      | none => rw [setIPv4TTL_accepted fd v k he]; rfl
      | some e => rw [setIPv4TTL_rejected fd v k e he]; rfl
    · rw [setIPv4TTL_rejected fd v k e he]
    · rw [setIPv4TTL_accepted fd v k he]
  · refine ⟨?_, fun e he => ?_, fun he => ?_⟩
    · cases he : k.fault (Call.setsockopt fd ianaProtocolIP SockOpt.IP_MULTICAST_TTL
          (bytesOfInt32 (int32 v)) 4) with
      | none => rw [setIPv4MulticastTTL_accepted fd v k he]; rfl
      | some e => rw [setIPv4MulticastTTL_rejected fd v k e he]; rfl
    · rw [setIPv4MulticastTTL_rejected fd v k e he]
    · rw [setIPv4MulticastTTL_accepted fd v k he]
  · refine ⟨?_, fun e he => ?_, fun he => ?_⟩
    · cases he : k.fault (Call.setsockopt fd ianaProtocolIP SockOpt.IP_MULTICAST_LOOP
          (bytesOfInt32 (int32 (boolint b))) 4) with
      | none => rw [setIPv4MulticastLoopback_accepted fd b k he]; rfl
      | some e => rw [setIPv4MulticastLoopback_rejected fd b k e he]; rfl
    · rw [setIPv4MulticastLoopback_rejected fd b k e he]
    · rw [setIPv4MulticastLoopback_accepted fd b k he]
  · cases he : k.fault (Call.getsockopt fd ianaProtocolIP SockOpt.IP_MULTICAST_IF 4) with
    | none => rw [ipv4MulticastInterface_accepted h fd k he]; rfl
    | some e => rw [ipv4MulticastInterface_rejected h fd k e he]; rfl
  · intro e he
    rw [ipv4MulticastInterface_rejected h fd k e he]
  · intro he
    rw [ipv4MulticastInterface_accepted h fd k he]
  · intro hr
    refine ⟨?_, fun e he => ?_, fun he => ?_⟩
    · cases he : k.fault (Call.setsockopt fd ianaProtocolIP SockOpt.IP_MULTICAST_IF
          (copy [0, 0, 0, 0] (sliceBytes ((h.netInterfaceToIP4 ifi).1.bind net.IP.To4))) 4) with
      | none => rw [setIPv4MulticastInterface_accepted h fd ifi k hr he]; rfl
      | some e => rw [setIPv4MulticastInterface_rejected h fd ifi k e hr he]; rfl
    · rw [setIPv4MulticastInterface_rejected h fd ifi k e hr he]
    · rw [setIPv4MulticastInterface_accepted h fd ifi k hr he]
  · intro hr
    obtain ⟨e, he⟩ := Option.ne_none_iff_exists'.mp hr
    rw [setIPv4MulticastInterface_unresolved h fd ifi k e he]
  · intro hm
    exact ⟨joinIPv4Group_fault h fd ifi grp k hm, leaveIPv4Group_fault h fd ifi grp k hm⟩
  · intro m hm
    refine ⟨fun hr => ⟨?_, ?_⟩, fun e he => ?_⟩
    · rw [joinIPv4Group_submits h fd ifi grp k m hm hr]
      exact ⟨_, rfl, setterVerdict_of_Setsockopt _ _ _ _ _ _⟩
    · rw [leaveIPv4Group_submits h fd ifi grp k m hm hr]
      exact ⟨_, rfl, setterVerdict_of_Setsockopt _ _ _ _ _ _⟩
    · exact ⟨joinIPv4Group_unresolved h fd ifi grp k m e hm he,
        leaveIPv4Group_unresolved h fd ifi grp k m e hm he⟩

/-- C2 as amended, on a kernel that rejects every call with error number 10038:
`ipv4TTL` returns 0 with `getsockopt: 10038` and `setIPv4TTL` returns
`setsockopt: 10038`; and on a kernel that accepts the read and holds 192.168.1.10:
`ipv4MulticastInterface` returns the answer of `netIP4ToInterface` for that address;
and at a 3-byte group `joinIPv4Group` faults with the kernel untouched. -/
theorem kernel_verdict_is_wrapped_witness :
    ((failingKernel 10038).fault (Call.getsockopt 3 ianaProtocolIP SockOpt.IP_TTL 4)
        = some (Errno.code 10038)
      ∧ (holdingKernel [192, 168, 1, 10]).fault
          (Call.getsockopt 3 ianaProtocolIP SockOpt.IP_MULTICAST_IF 4) = none
      ∧ newIPMreq [224, 0, 0] = Outcome.indexOutOfRange)
    ∧ (ipv4TTL 3 (failingKernel 10038)).1
        = (0, some (GoError.SyscallError "getsockopt" (GoError.errno (Errno.code 10038))))
    ∧ (setIPv4TTL 3 64 (failingKernel 10038)).1
        = some (GoError.SyscallError "setsockopt" (GoError.errno (Errno.code 10038)))
    ∧ (ipv4MulticastInterface (tableHelpers oneAddress) 3 (holdingKernel [192, 168, 1, 10])).1
        = (tableHelpers oneAddress).netIP4ToInterface (net.IPv4 192 168 1 10)
    ∧ joinIPv4Group (tableHelpers oneAddress) 3 (some eth0) [224, 0, 0] quietKernel
        = (Outcome.indexOutOfRange, quietKernel) :=
  ⟨⟨rfl, rfl, rfl⟩,
   (kernel_verdict_is_wrapped (tableHelpers oneAddress) 3 64 true (some eth0) [224, 0, 0, 1]
      (failingKernel 10038)).1.2.1.2.1 _ rfl,
   (kernel_verdict_is_wrapped (tableHelpers oneAddress) 3 64 true (some eth0) [224, 0, 0, 1]
      (failingKernel 10038)).2.1.2.1.2.1 _ rfl,
   (kernel_verdict_is_wrapped (tableHelpers oneAddress) 3 64 true (some eth0) [224, 0, 0, 1]
      (holdingKernel [192, 168, 1, 10])).2.2.1.2.2 rfl,
   ((kernel_verdict_is_wrapped (tableHelpers oneAddress) 3 64 true (some eth0) [224, 0, 0]
      quietKernel).2.2.2.2.1 rfl).1⟩

/-- C2 as stated fails twice. On a fresh socket the kernel accepts the read of
IP_MULTICAST_IF and returns 0.0.0.0, which no interface owns:
`ipv4MulticastInterface` returns the lookup error, not nil. And when the interface
has no IPv4 address `setIPv4MulticastInterface` returns without any call of the
primitive. -/
theorem accepted_read_may_end_in_lookup_error :
    quietKernel.fault (Call.getsockopt 5 ianaProtocolIP SockOpt.IP_MULTICAST_IF 4) = none
    ∧ (ipv4MulticastInterface (tableHelpers oneAddress) 5 quietKernel).2.trace
        = [Call.getsockopt 5 ianaProtocolIP SockOpt.IP_MULTICAST_IF 4]
    ∧ (ipv4MulticastInterface (tableHelpers oneAddress) 5 quietKernel).1
        = (none, some errNoSuchInterface)
    ∧ (setIPv4MulticastInterface (tableHelpers noAddress) 5 (some eth0) quietKernel).2.trace
        = [] := by
  decide

/-! ## Addresses -/

theorem To4_length (ip a : net.IP) (h : ip.To4 = some a) : a.length = 4 := by
  unfold net.IP.To4 at h
  split at h
  · injection h with h; subst h; assumption
  · split at h
    · injection h with h
      subst h
      simp only [List.length_drop]
      omega
    · exact Option.noConfusion h

theorem To4_IPv4 (a b c d : Nat) : (net.IPv4 a b c d).To4 = some [a, b, c, d] := by
  simp [net.IPv4, net.IP.To4, net.v4InV6Prefix]

theorem copy_zero_four (a : List Nat) (h : a.length = 4) : copy [0, 0, 0, 0] a = a := by
  match a, h with
  | [_, _, _, _], _ => rfl

theorem four_eq_getD (a : List Nat) (h : a.length = 4) :
    a = [a.getD 0 0, a.getD 1 0, a.getD 2 0, a.getD 3 0] := by
  match a, h with
  | [_, _, _, _], _ => rfl

theorem IPv4_Equal_of_To4 (ip : net.IP) (a0 a1 a2 a3 : Nat) (h : ip.To4 = some [a0, a1, a2, a3]) :
    (net.IPv4 a0 a1 a2 a3).Equal ip = true := by
  unfold net.IP.To4 at h
  split at h
  · injection h with h
    subst h
    simp [net.IPv4, net.IP.Equal, net.v4InV6Prefix]
  · split at h
    · rename_i h16
      injection h with h
      obtain ⟨hl, hz, h10, h11⟩ := h16
      match ip, hl with
      | [x0, x1, x2, x3, x4, x5, x6, x7, x8, x9, x10, x11, x12, x13, x14, x15], _ =>
        simp at hz h10 h11 h
        simp [net.IPv4, net.IP.Equal, net.v4InV6Prefix, hz, h10, h11, h]
    · exact Option.noConfusion h

theorem To4_of_IPv4_Equal (a0 a1 a2 a3 : Nat) (x : net.IP)
    (h : (net.IPv4 a0 a1 a2 a3).Equal x = true) : x.To4 = some [a0, a1, a2, a3] := by
  unfold net.IP.Equal at h
  split at h
  · have hx := of_decide_eq_true h
    rw [← hx]
    exact To4_IPv4 a0 a1 a2 a3
  · split at h
    · rename_i _ h4
      exact absurd h4.1 (by simp [net.IPv4, net.v4InV6Prefix])
    · split at h
      · rename_i _ _ h16
        obtain ⟨_, hx4⟩ := h16
        have hd : [a0, a1, a2, a3] = x := by
          simpa [net.IPv4, net.v4InV6Prefix] using h
        rw [← hd]
        simp [net.IP.To4]
      · exact absurd h (by decide)

/-! ## Round trip of the multicast interface -/

/-- C7, as the code has it: when `netInterfaceToIP4(ifi)` resolves to `ip` and
`ip.To4()` is the slice `a`, on a kernel that accepts the two calls,
`setIPv4MulticastInterface` submits exactly the four bytes of `a` in order, and the
following `ipv4MulticastInterface` returns what `netIP4ToInterface` answers for
`net.IPv4(a[0], a[1], a[2], a[3])`, an address equal to `ip` under `IP.Equal` and
with the same `To4` form. With the helpers over a table of local interfaces, an
interface returned is the first one in enumeration order that owns an address
with the IPv4 form of `ip`. -/
theorem multicast_interface_round_trip (h : Helpers) (fd : Handle)
    (ifi : Option net.Interface) (ip a : net.IP) (k : Kernel)
    (hres : h.netInterfaceToIP4 ifi = (some ip, none))
    (hip : ip.To4 = some a)
    (hset : k.fault (Call.setsockopt fd ianaProtocolIP SockOpt.IP_MULTICAST_IF a 4) = none)
    (hget : k.fault (Call.getsockopt fd ianaProtocolIP SockOpt.IP_MULTICAST_IF 4) = none) :
    a.length = 4
    ∧ (setIPv4MulticastInterface h fd ifi k).1 = none
    ∧ (setIPv4MulticastInterface h fd ifi k).2.trace
        = k.trace ++ [Call.setsockopt fd ianaProtocolIP SockOpt.IP_MULTICAST_IF a 4]
    ∧ (ipv4MulticastInterface h fd (setIPv4MulticastInterface h fd ifi k).2).1
        = h.netIP4ToInterface (net.IPv4 (a.getD 0 0) (a.getD 1 0) (a.getD 2 0) (a.getD 3 0))
    ∧ (net.IPv4 (a.getD 0 0) (a.getD 1 0) (a.getD 2 0) (a.getD 3 0)).Equal ip = true
    ∧ (net.IPv4 (a.getD 0 0) (a.getD 1 0) (a.getD 2 0) (a.getD 3 0)).To4 = ip.To4
    ∧ (∀ tab : InterfaceTable, h = tableHelpers tab →
        ∀ i, (ipv4MulticastInterface h fd (setIPv4MulticastInterface h fd ifi k).2).1
            = (some i, none) →
          ∃ before e after, tab = before ++ e :: after ∧ e.1 = i
            ∧ (∃ x ∈ e.2, x.To4 = ip.To4)
            ∧ (∀ e1 ∈ before, ∀ x ∈ e1.2, x.To4 ≠ ip.To4)) := by
  have hlen := To4_length ip a hip
  have hr : (h.netInterfaceToIP4 ifi).2 = none := by rw [hres]
  have hbuf : copy [0, 0, 0, 0] (sliceBytes ((h.netInterfaceToIP4 ifi).1.bind net.IP.To4)) = a := by
    rw [hres]
    simp only [Option.some_bind, hip, sliceBytes, Option.getD_some]
    exact copy_zero_four a hlen
  have hset1 := hset
  rw [← hbuf] at hset1
  have e1 := setIPv4MulticastInterface_accepted h fd ifi k hr hset1
  rw [hbuf] at e1
  have hga := four_eq_getD a hlen
  have hto4 : (net.IPv4 (a.getD 0 0) (a.getD 1 0) (a.getD 2 0) (a.getD 3 0)).To4 = ip.To4 := by
    rw [To4_IPv4, hip, ← hga]
  have e2 : (ipv4MulticastInterface h fd (setIPv4MulticastInterface h fd ifi k).2).1
      = h.netIP4ToInterface (net.IPv4 (a.getD 0 0) (a.getD 1 0) (a.getD 2 0) (a.getD 3 0)) := by
    rw [e1]
    show (ipv4MulticastInterface h fd ((k.store fd ianaProtocolIP SockOpt.IP_MULTICAST_IF
      (List.take 4 a)).record (Call.setsockopt fd ianaProtocolIP SockOpt.IP_MULTICAST_IF a 4))).1
        = _
    rw [ipv4MulticastInterface_accepted h fd ((k.store fd ianaProtocolIP
      SockOpt.IP_MULTICAST_IF (List.take 4 a)).record
        (Call.setsockopt fd ianaProtocolIP SockOpt.IP_MULTICAST_IF a 4)) hget, mem_after_store,
      List.take_of_length_le (le_of_eq hlen), copy_four 0 0 0 0 a hlen]
  refine ⟨hlen, ?_, ?_, e2, ?_, hto4, ?_⟩
  · rw [e1]
  · rw [e1]; rfl
  · exact IPv4_Equal_of_To4 ip _ _ _ _ (by rw [hip, ← hga])
  · intro tab htab i hi
    rw [e2, htab] at hi
    have hip4 : ip.To4 = some [a.getD 0 0, a.getD 1 0, a.getD 2 0, a.getD 3 0] := by
      rw [hip, ← hga]
    change tableNetIP4ToInterface tab _ = _ at hi
    unfold tableNetIP4ToInterface at hi
    cases hfind : tab.find? (fun e => e.2.any (fun x =>
        (net.IPv4 (a.getD 0 0) (a.getD 1 0) (a.getD 2 0) (a.getD 3 0)).Equal x)) with
    | none =>
      rw [hfind] at hi
      injection hi with h1 _
      exact Option.noConfusion h1
    | some e =>
      rw [hfind] at hi
      have hei : e.1 = i := by
        injection hi with h1 _
        injection h1
      obtain ⟨hp, before, after, htab2, hbefore⟩ := List.find?_eq_some.mp hfind
      refine ⟨before, e, after, htab2, hei, ?_, ?_⟩
      · obtain ⟨x, hx, hxe⟩ := List.any_eq_true.mp hp
        exact ⟨x, hx, (To4_of_IPv4_Equal _ _ _ _ x hxe).trans hip4.symm⟩
      · intro e1 he1 x hx hxto
        have hne := hbefore e1 he1
        have hq : (net.IPv4 (a.getD 0 0) (a.getD 1 0) (a.getD 2 0) (a.getD 3 0)).Equal x
            = true := IPv4_Equal_of_To4 x _ _ _ _ (hxto.trans hip4)
        have hany : e1.2.any (fun x =>
            (net.IPv4 (a.getD 0 0) (a.getD 1 0) (a.getD 2 0) (a.getD 3 0)).Equal x) = true :=
          List.any_eq_true.mpr ⟨x, hx, hq⟩
        rw [hany] at hne
        exact absurd hne (by decide)

/-- C7 as amended, on the host whose interface `eth0` has the address 192.168.1.10:
the four bytes 192 168 1 10 are submitted, and the interface read back is the
answer of `netIP4ToInterface` for 192.168.1.10, the first interface owning it. -/
theorem multicast_interface_round_trip_witness :
    ((tableHelpers oneAddress).netInterfaceToIP4 (some eth0) = (some [192, 168, 1, 10], none)
      ∧ net.IP.To4 [192, 168, 1, 10] = some [192, 168, 1, 10]
      ∧ quietKernel.fault (Call.setsockopt 5 ianaProtocolIP SockOpt.IP_MULTICAST_IF
          [192, 168, 1, 10] 4) = none
      ∧ quietKernel.fault (Call.getsockopt 5 ianaProtocolIP SockOpt.IP_MULTICAST_IF 4) = none)
    ∧ (setIPv4MulticastInterface (tableHelpers oneAddress) 5 (some eth0) quietKernel).2.trace
        = [Call.setsockopt 5 ianaProtocolIP SockOpt.IP_MULTICAST_IF [192, 168, 1, 10] 4]
    ∧ (ipv4MulticastInterface (tableHelpers oneAddress) 5
        (setIPv4MulticastInterface (tableHelpers oneAddress) 5 (some eth0) quietKernel).2).1
        = (tableHelpers oneAddress).netIP4ToInterface (net.IPv4 192 168 1 10)
    ∧ (∃ before e after, oneAddress = before ++ e :: after ∧ e.1 = eth0
        ∧ (∃ x ∈ e.2, x.To4 = net.IP.To4 [192, 168, 1, 10])
        ∧ (∀ e1 ∈ before, ∀ x ∈ e1.2, x.To4 ≠ net.IP.To4 [192, 168, 1, 10])) :=
  ⟨⟨rfl, rfl, rfl, rfl⟩,
   (multicast_interface_round_trip (tableHelpers oneAddress) 5 (some eth0) [192, 168, 1, 10]
      [192, 168, 1, 10] quietKernel rfl rfl rfl rfl).2.2.1,
   (multicast_interface_round_trip (tableHelpers oneAddress) 5 (some eth0) [192, 168, 1, 10]
      [192, 168, 1, 10] quietKernel rfl rfl rfl rfl).2.2.2.1,
   (multicast_interface_round_trip (tableHelpers oneAddress) 5 (some eth0) [192, 168, 1, 10]
      [192, 168, 1, 10] quietKernel rfl rfl rfl rfl).2.2.2.2.2.2 oneAddress rfl eth0
        (by decide)⟩

/-- C7 as stated fails on a host where `eth0` has 10.0.0.1 and 10.0.0.2 and `eth1`
has 10.0.0.2: `setIPv4MulticastInterface(5, eth1)` submits 10 0 0 2, the kernel
accepts both calls, and `ipv4MulticastInterface(5)` returns `eth0`, whose primary
IPv4 address is 10.0.0.1 and not 10.0.0.2. -/
theorem multicast_interface_read_back_other_primary :
    (tableHelpers sharedAddress).netInterfaceToIP4 (some eth1) = (some [10, 0, 0, 2], none)
    ∧ net.IP.To4 [10, 0, 0, 2] = some [10, 0, 0, 2]
    ∧ (setIPv4MulticastInterface (tableHelpers sharedAddress) 5 (some eth1) quietKernel).1
        = none
    ∧ (setIPv4MulticastInterface (tableHelpers sharedAddress) 5 (some eth1)
        quietKernel).2.trace
        = [Call.setsockopt 5 ianaProtocolIP SockOpt.IP_MULTICAST_IF [10, 0, 0, 2] 4]
    ∧ (ipv4MulticastInterface (tableHelpers sharedAddress) 5
        (setIPv4MulticastInterface (tableHelpers sharedAddress) 5 (some eth1)
          quietKernel).2).1 = (some eth0, none)
    ∧ (tableHelpers sharedAddress).netInterfaceToIP4 (some eth0) = (some [10, 0, 0, 1], none)
    ∧ net.IP.To4 [10, 0, 0, 1] ≠ net.IP.To4 [10, 0, 0, 2] := by
  decide

end ipv4
